import Mathlib

/-!
# LiDAR-Lite driver (src/main.cpp): shallow embedding

The program talks to one sensor over I2C and prints a line per poll cycle.
The embedding keeps the source's function names.

* The Mbed library calls (`i2c.write`, `i2c.read`, `wait`, `printf`, `exit`) are
  library code outside the repository.  The bus is a parameter
  `bus : Nat → Reply`: the reply to the n-th bus transaction of the run.  Because the
  driver is deterministic this covers every device behaviour.  Every library call is
  recorded as an `Event` in the trace of the `State`.
* `char` is the unsigned 8-bit type of the ARM targets Mbed builds for; a byte stored in
  a `char` is reduced `% 256`.  `int` is wide enough for every intermediate value here
  (the largest is `255 * 32` and `255 << 8`).
* `exit(1)` never returns: `die` yields `Outcome.exited`, which every caller propagates.
* The two loops without a bound (`do ... while (busy)` and `while (1)`) take a fuel
  argument; running out of it yields `Outcome.running`.
-/

namespace Lidar

/-! ## The environment -/

/-- What the bus answers to one transaction: the integer returned by `i2c.write` or
`i2c.read`, and for a read the byte placed at each index of the buffer. -/
structure Reply where
  result : Int
  data : Nat → Nat

/-- The bytes a read of `len` bytes stores in its `char` buffer. -/
def recv (rp : Reply) (len : Nat) : List Nat :=
  (List.range len).map fun i => rp.data i % 256

/-- One library call made by the program, with what it was given and what it got back. -/
inductive Event where
  /-- The call `i2c.write(addr, data, length)` and its return value. -/
  | write (addr : Nat) (data : List Nat) (result : Int)
  /-- The call `i2c.read(addr, buf, len)`, its return value and the bytes received. -/
  | read (addr : Nat) (len : Nat) (result : Int) (bytes : List Nat)
  /-- The call `wait(0.5)`. -/
  | wait
  /-- The call `printf(fmt, args...)` or `vprintf(fmt, args)` with its integer arguments. -/
  | printf (fmt : String) (args : List Int)
  /-- The call `exit(status)`. -/
  | exit (status : Int)
  deriving DecidableEq, Repr

/-- Program state visible to the environment: the number of bus transactions made so
far and the trace of library calls, oldest first. -/
structure State where
  txn : Nat
  trace : List Event
  deriving DecidableEq, Repr

/-- How a call ends: it returns a value, the process has exited, or the fuel of an
unbounded loop ran out while the program was still running. -/
inductive Outcome (α : Type) where
  | ok (val : α) (s : State)
  | exited (s : State)
  | running (s : State)
  deriving DecidableEq, Repr

/-- The state at the end of a call, whatever the outcome. -/
def Outcome.state {α : Type} : Outcome α → State
  | .ok _ s => s
  | .exited s => s
  | .running s => s

/-- The method `I2C::write` of the library: performs the next bus transaction. -/
def i2c_write (bus : Nat → Reply) (addr : Nat) (data : List Nat) (s : State) : Int × State :=
  ((bus s.txn).result,
   { txn := s.txn + 1, trace := s.trace ++ [Event.write addr data (bus s.txn).result] })

/-- The method `I2C::read` of the library: performs the next bus transaction and fills
the buffer. -/
def i2c_read (bus : Nat → Reply) (addr : Nat) (len : Nat) (s : State) :
    Int × List Nat × State :=
  ((bus s.txn).result, recv (bus s.txn) len,
   { txn := s.txn + 1,
     trace := s.trace ++ [Event.read addr len (bus s.txn).result (recv (bus s.txn) len)] })

/-- The library call `wait(0.5)`. -/
def wait (s : State) : State :=
  { s with trace := s.trace ++ [Event.wait] }

/-- The library call `printf`. -/
def printf (fmt : String) (args : List Int) (s : State) : State :=
  { s with trace := s.trace ++ [Event.printf fmt args] }

/-! ## Integer conversions of C -/

/-- Conversion of an `int` to `int8_t` (two's complement wrap-around). -/
def to_int8 (x : Int) : Int := (x + 128) % 256 - 128

/-- Conversion of a non-negative `int` to `uint16_t`. -/
def to_uint16 (x : Nat) : Nat := x % 65536

/-- Conversion of a non-negative `int` to `char`. -/
def to_char (x : Nat) : Nat := x % 256

/-! ## Constants (main.cpp lines 28-44) -/

def LIDAR_ADDR : Nat := 0x62 <<< 1

def LIDAR_ACQ_CMD_REG : Nat := 0x00
def LIDAR_ACQ_CMD : Nat := 0x04

def LIDAR_STATUS_REG : Nat := 0x01
def LIDAR_STATUS_BUSY_MASK : Nat := 0x01
def LIDAR_STATUS_HEALTH_MASK : Nat := 0x20

def LIDAR_DELTA_VELOCITY_REG : Nat := 0x09

def LIDAR_DIST_REG : Nat := 0x8f

/-! ## The driver (main.cpp lines 46-184) -/

/-- The function `die`: prints the message, prints the line end, exits with status 1. -/
def die {α : Type} (fmt : String) (s : State) : Outcome α :=
  .exited { s with trace := s.trace ++
    [Event.printf fmt [], Event.printf "\r\n" [], Event.exit 1] }

/-- The struct `lidar_status_t`: two `char` fields. -/
structure lidar_status_t where
  busy : Nat
  healthy : Nat
  deriving DecidableEq, Repr

/-- The function `lidar_read_status` (lines 78-92). -/
def lidar_read_status (bus : Nat → Reply) (s : State) : Outcome lidar_status_t :=
  match i2c_write bus LIDAR_ADDR [LIDAR_STATUS_REG] s with
  | (r1, s1) =>
    if r1 ≠ 0 then
      die "lidar: read_status: failed to select status register for read" s1
    else
      match i2c_read bus LIDAR_ADDR 1 s1 with
      | (r2, buf, s2) =>
        if r2 ≠ 0 then
          die "lidar: read_status: failed to read status register" s2
        else
          .ok { busy := to_char (buf.getD 0 0 &&& LIDAR_STATUS_BUSY_MASK),
                healthy := to_char ((buf.getD 0 0 * LIDAR_STATUS_HEALTH_MASK) >>> 5) } s2

/-- The function `lidar_die` (lines 97-104). -/
def lidar_die (bus : Nat → Reply) (s : State) : Outcome Unit :=
  match lidar_read_status bus s with
  | .ok lidar_status s1 =>
    if lidar_status.healthy = 0 then
      die "lidar: sensor is not healthy" s1
    else
      .ok () s1
  | .exited s1 => .exited s1
  | .running s1 => .running s1

/-- The function `lidar_write_acq_cmd` (lines 109-117). -/
def lidar_write_acq_cmd (bus : Nat → Reply) (s : State) : Outcome Unit :=
  match i2c_write bus LIDAR_ADDR [LIDAR_ACQ_CMD_REG, LIDAR_ACQ_CMD] s with
  | (r1, s1) =>
    if r1 ≠ 0 then
      die "lidar: write_acq_cmd: failed to write acquire command" s1
    else
      .ok () s1

/-- The function `lidar_read_distance` (lines 124-137). -/
def lidar_read_distance (bus : Nat → Reply) (s : State) : Outcome Nat :=
  match i2c_write bus LIDAR_ADDR [LIDAR_DIST_REG] s with
  | (r1, s1) =>
    if r1 ≠ 0 then
      die "lidar: read_distance: failed to select distance registers for read" s1
    else
      match i2c_read bus LIDAR_ADDR 2 s1 with
      | (r2, buf, s2) =>
        if r2 ≠ 0 then
          die "lidar: read_distance: failed to read distance registers" s2
        else
          .ok (to_uint16 (buf.getD 1 0 ||| (buf.getD 0 0 <<< 8))) s2

/-- The function `lidar_read_delta_velocity` (lines 143-154). -/
def lidar_read_delta_velocity (bus : Nat → Reply) (s : State) : Outcome Int :=
  match i2c_write bus LIDAR_ADDR [LIDAR_DELTA_VELOCITY_REG] s with
  | (r1, s1) =>
    if r1 ≠ 0 then
      die "lidar: read_delta_velocity: failed to select delta velocity register for read" s1
    else
      match i2c_read bus LIDAR_ADDR 1 s1 with
      | (r2, buf, s2) =>
        if r2 ≠ 0 then
          die "lidar: read_delta_velocity: failed to read delta velocity register" s2
        else
          .ok (to_int8 (buf.getD 0 0 : Nat)) s2

/-- The loop `do { lidar_read_status(&lidar_status); wait(0.5); } while (lidar_status.busy);`
of `main` (lines 166-169); `fuel` bounds the number of iterations. -/
def busy_wait (bus : Nat → Reply) : Nat → State → Outcome lidar_status_t
  | 0, s => .running s
  | fuel + 1, s =>
    match lidar_read_status bus s with
    | .ok lidar_status s1 =>
      if lidar_status.busy ≠ 0 then
        busy_wait bus fuel (wait s1)
      else
        .ok lidar_status (wait s1)
    | .exited s1 => .exited s1
    | .running s1 => .running s1

/-- The format string of the report line of `main`. -/
def REPORT_FMT : String := "lidar: distance=%d cm, velocity=%d cm/s\r\n"

/-- The body of the `while (1)` loop of `main` (lines 160-182): one poll cycle.
It takes the value of `lidar_velocity` before the cycle and returns the one after. -/
def poll_cycle (bus : Nat → Reply) (fuel : Nat) (lidar_velocity : Int) (s : State) :
    Outcome Int :=
  match lidar_write_acq_cmd bus s with
  | .exited s1 => .exited s1
  | .running s1 => .running s1
  | .ok () s1 =>
    match busy_wait bus fuel s1 with
    | .exited s2 => .exited s2
    | .running s2 => .running s2
    | .ok _ s2 =>
      match lidar_read_distance bus s2 with
      | .exited s3 => .exited s3
      | .running s3 => .running s3
      | .ok raw s3 =>
        let lidar_distance := if raw ≥ to_uint16 9999 then 9999 else raw
        match lidar_read_delta_velocity bus s3 with
        | .exited s4 => .exited s4
        | .running s4 => .running s4
        | .ok delta s4 =>
          let lidar_velocity := to_int8 (lidar_velocity + delta)
          .ok lidar_velocity (printf REPORT_FMT [(lidar_distance : Int), lidar_velocity] s4)

/-- The loop `while (1)` of `main`, run for at most `cycles` iterations: `Outcome.ok v s`
is the state at the top of the next iteration, with `lidar_velocity = v`. -/
def main_loop (bus : Nat → Reply) (fuel : Nat) : Nat → Int → State → Outcome Int
  | 0, lidar_velocity, s => .ok lidar_velocity s
  | cycles + 1, lidar_velocity, s =>
    match poll_cycle bus fuel lidar_velocity s with
    | .ok v s1 => main_loop bus fuel cycles v s1
    | .exited s1 => .exited s1
    | .running s1 => .running s1

/-- The function `main` (lines 156-184), observed after at most `cycles` iterations of
its loop: `lidar_velocity` starts at 0, nothing has happened yet. -/
def main (bus : Nat → Reply) (fuel cycles : Nat) : Outcome Int :=
  main_loop bus fuel cycles 0 { txn := 0, trace := [] }

/-! ## Vocabulary of the statements -/

/-- A bus given by its first replies, each a result code and the bytes of a read; every
later transaction succeeds and reads zeros.  Used to build concrete runs. -/
def bus_of (rs : List (Int × List Nat)) : Nat → Reply := fun n =>
  match rs.get? n with
  | some (r, bs) => { result := r, data := fun i => bs.getD i 0 }
  | none => { result := 0, data := fun _ => 0 }

/-- The trace of a fatal error: the message, the line end, then `exit(1)`. -/
def diagnostic (msg : String) : List Event :=
  [Event.printf msg [], Event.printf "\r\n" [], Event.exit 1]

/-- The state after `evs` more library calls, `n` of them bus transactions. -/
def State.after (s : State) (n : Nat) (evs : List Event) : State :=
  { txn := s.txn + n, trace := s.trace ++ evs }

/-- The events of `k` successful status polls of the busy-wait loop, the first of them
starting at transaction `t`: select the status register, read one byte, wait. -/
def status_polls (bus : Nat → Reply) : Nat → Nat → List Event
  | _, 0 => []
  | t, k + 1 =>
    Event.write (0x62 <<< 1) [0x01] 0 ::
    Event.read (0x62 <<< 1) 1 0 [(bus (t + 1)).data 0 % 256] ::
    Event.wait :: status_polls bus (t + 2) k

/-- The high distance byte read in a poll cycle that starts at transaction `t` and makes
`k` status polls. -/
def dist_hi (bus : Nat → Reply) (t k : Nat) : Nat := (bus (t + 2 * k + 2)).data 0 % 256

/-- The low distance byte read in that cycle. -/
def dist_lo (bus : Nat → Reply) (t k : Nat) : Nat := (bus (t + 2 * k + 2)).data 1 % 256

/-- The delta-velocity byte read in that cycle. -/
def delta_byte (bus : Nat → Reply) (t k : Nat) : Nat := (bus (t + 2 * k + 4)).data 0 % 256

/-- A poll cycle starting at transaction `t` in which every bus transaction succeeds and
the `k`-th status read (`k ≥ 1`) is the first whose byte has bit 0 clear. -/
def PollCycleOk (bus : Nat → Reply) (t k : Nat) : Prop :=
  1 ≤ k ∧
  (∀ j, j < 2 * k + 5 → (bus (t + j)).result = 0) ∧
  (∀ j, j < k - 1 → (bus (t + 2 * j + 2)).data 0 % 256 % 2 = 1) ∧
  (bus (t + 2 * k)).data 0 % 256 % 2 = 0

instance (bus : Nat → Reply) (t k : Nat) : Decidable (PollCycleOk bus t k) :=
  inferInstanceAs (Decidable (1 ≤ k ∧
    (∀ j, j < 2 * k + 5 → (bus (t + j)).result = 0) ∧
    (∀ j, j < k - 1 → (bus (t + 2 * j + 2)).data 0 % 256 % 2 = 1) ∧
    (bus (t + 2 * k)).data 0 % 256 % 2 = 0))

/-- The events of that cycle, entered with `lidar_velocity = vel`, in order. -/
def cycle_events (bus : Nat → Reply) (t k : Nat) (vel : Int) : List Event :=
  Event.write (0x62 <<< 1) [0x00, 0x04] 0 ::
  status_polls bus (t + 1) k ++
  [Event.write (0x62 <<< 1) [0x8f] 0,
   Event.read (0x62 <<< 1) 2 0 [dist_hi bus t k, dist_lo bus t k],
   Event.write (0x62 <<< 1) [0x09] 0,
   Event.read (0x62 <<< 1) 1 0 [delta_byte bus t k],
   Event.printf "lidar: distance=%d cm, velocity=%d cm/s\r\n"
     [((min (256 * dist_hi bus t k + dist_lo bus t k) 9999 : Nat) : Int),
      to_int8 (vel + to_int8 (delta_byte bus t k))]]

/-- A run of consecutive good poll cycles from transaction `t`; `ks` lists the number
of status polls of each cycle. -/
def RunOk (bus : Nat → Reply) : Nat → List Nat → Prop
  | _, [] => True
  | t, k :: ks => PollCycleOk bus t k ∧ RunOk bus (t + (2 * k + 5)) ks

/-- The signed delta-velocity readings of the cycles of such a run, in order. -/
def run_deltas (bus : Nat → Reply) : Nat → List Nat → List Int
  | _, [] => []
  | t, k :: ks => to_int8 (delta_byte bus t k) :: run_deltas bus (t + (2 * k + 5)) ks

/-- The number of bus transactions of such a run. -/
def run_txns : List Nat → Nat
  | [] => 0
  | k :: ks => (2 * k + 5) + run_txns ks

/-- The events of such a run, entered with `lidar_velocity = vel`. -/
def run_events (bus : Nat → Reply) : Nat → List Nat → Int → List Event
  | _, [], _ => []
  | t, k :: ks, vel =>
    cycle_events bus t k vel ++
    run_events bus (t + (2 * k + 5)) ks (to_int8 (vel + to_int8 (delta_byte bus t k)))

/-- The value of `lidar_velocity` after the statement `lidar_velocity += d` has run for
each reading `d` of `ds` in turn, starting from `vel`. -/
def accumulate (vel : Int) (ds : List Int) : Int :=
  ds.foldl (fun v d => to_int8 (v + d)) vel

/-- No event of the list selects the distance registers. -/
def NoDistSelect (evs : List Event) : Prop :=
  ∀ e, e ∈ evs → ∀ r : Int, e ≠ Event.write (0x62 <<< 1) [0x8f] r

/-- A poll cycle starting at transaction `t` whose acquire command and first `j` status
polls succeed, each of these polls reading a byte with bit 0 set. -/
def BusyPolls (bus : Nat → Reply) (t j : Nat) : Prop :=
  (∀ i, i < 2 * j + 1 → (bus (t + i)).result = 0) ∧
  (∀ i, i < j → (bus (t + 2 * i + 2)).data 0 % 256 % 2 = 1)

instance (bus : Nat → Reply) (t j : Nat) : Decidable (BusyPolls bus t j) :=
  inferInstanceAs (Decidable (
    (∀ i, i < 2 * j + 1 → (bus (t + i)).result = 0) ∧
    (∀ i, i < j → (bus (t + 2 * i + 2)).data 0 % 256 % 2 = 1)))

/-- A poll cycle starting at transaction `t` whose acquire command and `k` status polls
succeed, the `k`-th status read (`k ≥ 1`) being the first whose byte has bit 0 clear. -/
def WaitOk (bus : Nat → Reply) (t k : Nat) : Prop :=
  1 ≤ k ∧
  (∀ j, j < 2 * k + 1 → (bus (t + j)).result = 0) ∧
  (∀ j, j < k - 1 → (bus (t + 2 * j + 2)).data 0 % 256 % 2 = 1) ∧
  (bus (t + 2 * k)).data 0 % 256 % 2 = 0

instance (bus : Nat → Reply) (t k : Nat) : Decidable (WaitOk bus t k) :=
  inferInstanceAs (Decidable (1 ≤ k ∧
    (∀ j, j < 2 * k + 1 → (bus (t + j)).result = 0) ∧
    (∀ j, j < k - 1 → (bus (t + 2 * j + 2)).data 0 % 256 % 2 = 1) ∧
    (bus (t + 2 * k)).data 0 % 256 % 2 = 0))

/-! ## Basic facts -/

theorem recv_one (rp : Reply) : recv rp 1 = [rp.data 0 % 256] := rfl

theorem recv_two (rp : Reply) : recv rp 2 = [rp.data 0 % 256, rp.data 1 % 256] := rfl

theorem read_status_write_fails (bus : Nat → Reply) (s : State)
    (hw : (bus s.txn).result ≠ 0) :
    lidar_read_status bus s = .exited (s.after 1
      (Event.write LIDAR_ADDR [LIDAR_STATUS_REG] (bus s.txn).result ::
        diagnostic "lidar: read_status: failed to select status register for read")) := by
  simp [lidar_read_status, i2c_write, die, hw, State.after, diagnostic]

theorem read_status_read_fails (bus : Nat → Reply) (s : State)
    (hw : (bus s.txn).result = 0) (hr : (bus (s.txn + 1)).result ≠ 0) :
    lidar_read_status bus s = .exited (s.after 2
      (Event.write LIDAR_ADDR [LIDAR_STATUS_REG] 0 ::
        Event.read LIDAR_ADDR 1 (bus (s.txn + 1)).result (recv (bus (s.txn + 1)) 1) ::
        diagnostic "lidar: read_status: failed to read status register")) := by
  simp [lidar_read_status, i2c_write, i2c_read, die, hw, hr, State.after, diagnostic]

theorem read_status_ok (bus : Nat → Reply) (s : State)
    (hw : (bus s.txn).result = 0) (hr : (bus (s.txn + 1)).result = 0) :
    lidar_read_status bus s =
      .ok { busy := to_char ((bus (s.txn + 1)).data 0 % 256 &&& LIDAR_STATUS_BUSY_MASK),
            healthy := to_char
              (((bus (s.txn + 1)).data 0 % 256 * LIDAR_STATUS_HEALTH_MASK) >>> 5) }
        (s.after 2 [Event.write LIDAR_ADDR [LIDAR_STATUS_REG] 0,
          Event.read LIDAR_ADDR 1 0 [(bus (s.txn + 1)).data 0 % 256]]) := by
  simp [lidar_read_status, i2c_write, i2c_read, hw, hr, State.after, recv_one]

theorem write_acq_cmd_fails (bus : Nat → Reply) (s : State)
    (hw : (bus s.txn).result ≠ 0) :
    lidar_write_acq_cmd bus s = .exited (s.after 1
      (Event.write LIDAR_ADDR [LIDAR_ACQ_CMD_REG, LIDAR_ACQ_CMD] (bus s.txn).result ::
        diagnostic "lidar: write_acq_cmd: failed to write acquire command")) := by
  simp [lidar_write_acq_cmd, i2c_write, die, hw, State.after, diagnostic]

theorem write_acq_cmd_ok (bus : Nat → Reply) (s : State)
    (hw : (bus s.txn).result = 0) :
    lidar_write_acq_cmd bus s = .ok () (s.after 1
      [Event.write LIDAR_ADDR [LIDAR_ACQ_CMD_REG, LIDAR_ACQ_CMD] 0]) := by
  simp [lidar_write_acq_cmd, i2c_write, hw, State.after]

theorem read_distance_write_fails (bus : Nat → Reply) (s : State)
    (hw : (bus s.txn).result ≠ 0) :
    lidar_read_distance bus s = .exited (s.after 1
      (Event.write LIDAR_ADDR [LIDAR_DIST_REG] (bus s.txn).result ::
        diagnostic "lidar: read_distance: failed to select distance registers for read")) := by
  simp [lidar_read_distance, i2c_write, die, hw, State.after, diagnostic]

theorem read_distance_read_fails (bus : Nat → Reply) (s : State)
    (hw : (bus s.txn).result = 0) (hr : (bus (s.txn + 1)).result ≠ 0) :
    lidar_read_distance bus s = .exited (s.after 2
      (Event.write LIDAR_ADDR [LIDAR_DIST_REG] 0 ::
        Event.read LIDAR_ADDR 2 (bus (s.txn + 1)).result (recv (bus (s.txn + 1)) 2) ::
        diagnostic "lidar: read_distance: failed to read distance registers")) := by
  simp [lidar_read_distance, i2c_write, i2c_read, die, hw, hr, State.after, diagnostic]

theorem read_distance_ok (bus : Nat → Reply) (s : State)
    (hw : (bus s.txn).result = 0) (hr : (bus (s.txn + 1)).result = 0) :
    lidar_read_distance bus s =
      .ok (to_uint16 ((bus (s.txn + 1)).data 1 % 256 |||
            ((bus (s.txn + 1)).data 0 % 256) <<< 8))
        (s.after 2 [Event.write LIDAR_ADDR [LIDAR_DIST_REG] 0,
          Event.read LIDAR_ADDR 2 0
            [(bus (s.txn + 1)).data 0 % 256, (bus (s.txn + 1)).data 1 % 256]]) := by
  simp [lidar_read_distance, i2c_write, i2c_read, hw, hr, State.after, recv_two]

theorem read_delta_velocity_write_fails (bus : Nat → Reply) (s : State)
    (hw : (bus s.txn).result ≠ 0) :
    lidar_read_delta_velocity bus s = .exited (s.after 1
      (Event.write LIDAR_ADDR [LIDAR_DELTA_VELOCITY_REG] (bus s.txn).result ::
        diagnostic
          "lidar: read_delta_velocity: failed to select delta velocity register for read")) := by
  simp [lidar_read_delta_velocity, i2c_write, die, hw, State.after, diagnostic]

theorem read_delta_velocity_read_fails (bus : Nat → Reply) (s : State)
    (hw : (bus s.txn).result = 0) (hr : (bus (s.txn + 1)).result ≠ 0) :
    lidar_read_delta_velocity bus s = .exited (s.after 2
      (Event.write LIDAR_ADDR [LIDAR_DELTA_VELOCITY_REG] 0 ::
        Event.read LIDAR_ADDR 1 (bus (s.txn + 1)).result (recv (bus (s.txn + 1)) 1) ::
        diagnostic "lidar: read_delta_velocity: failed to read delta velocity register")) := by
  simp [lidar_read_delta_velocity, i2c_write, i2c_read, die, hw, hr, State.after, diagnostic]

theorem read_delta_velocity_ok (bus : Nat → Reply) (s : State)
    (hw : (bus s.txn).result = 0) (hr : (bus (s.txn + 1)).result = 0) :
    lidar_read_delta_velocity bus s =
      .ok (to_int8 (((bus (s.txn + 1)).data 0 % 256 : Nat) : Int))
        (s.after 2 [Event.write LIDAR_ADDR [LIDAR_DELTA_VELOCITY_REG] 0,
          Event.read LIDAR_ADDR 1 0 [(bus (s.txn + 1)).data 0 % 256]]) := by
  simp [lidar_read_delta_velocity, i2c_write, i2c_read, hw, hr, State.after, recv_one]

/-- Reassembly of two bytes: or-ing the low byte into the shifted high byte adds them. -/
theorem reassemble_bytes (hi lo : Nat) (hhi : hi < 256) (hlo : lo < 256) :
    to_uint16 (lo ||| (hi <<< 8)) = 256 * hi + lo := by
  have h1 : hi <<< 8 = 2 ^ 8 * hi := by rw [Nat.shiftLeft_eq, Nat.mul_comm]
  have h2 : 2 ^ 8 * hi + lo = 2 ^ 8 * hi ||| lo := Nat.mul_add_lt_is_or (by omega) hi
  rw [Nat.lor_comm, h1, ← h2, to_uint16]
  omega

/-- Conversion of a byte to `int8_t`. -/
theorem to_int8_byte (b : Nat) (hb : b < 256) :
    to_int8 (b : Int) = if b < 128 then (b : Int) else (b : Int) - 256 := by
  unfold to_int8
  split <;> omega

/-- Multiplying a byte by the health mask and shifting right by 5 gives the byte back. -/
theorem health_expr (b : Nat) (hb : b < 256) :
    to_char ((b * LIDAR_STATUS_HEALTH_MASK) >>> 5) = b := by
  simp only [to_char, LIDAR_STATUS_HEALTH_MASK, Nat.shiftRight_eq_div_pow]
  omega

/-! ## The busy-wait loop and the poll cycle -/

theorem after_after (s : State) (n m : Nat) (e f : List Event) :
    (s.after n e).after m f = s.after (n + m) (e ++ f) := by
  simp [State.after, Nat.add_assoc]

theorem wait_after (s : State) (n : Nat) (e : List Event) :
    wait (s.after n e) = s.after n (e ++ [Event.wait]) := by
  simp [State.after, wait]

theorem after_txn (s : State) (n : Nat) (e : List Event) : (s.after n e).txn = s.txn + n := rfl

/-- If the first `k - 1` status bytes have bit 0 set, the `k`-th has it clear and all
`2 * k` transactions succeed, the loop returns after exactly `k` polls. -/
theorem busy_wait_ends (bus : Nat → Reply) (k : Nat) :
    ∀ (fuel : Nat) (s : State), 1 ≤ k → k ≤ fuel →
      (∀ j, j < 2 * k → (bus (s.txn + j)).result = 0) →
      (∀ j, j + 1 < k → (bus (s.txn + 2 * j + 1)).data 0 % 256 % 2 = 1) →
      (bus (s.txn + 2 * k - 1)).data 0 % 256 % 2 = 0 →
      ∃ st, busy_wait bus fuel s = .ok st (s.after (2 * k) (status_polls bus s.txn k))
        ∧ st.busy = 0 := by
  induction k with
  | zero => intro fuel s h; omega
  | succ k ih =>
    intro fuel s _ hf hres hbusy hlast
    obtain ⟨fuel, rfl⟩ : ∃ f, fuel = f + 1 := ⟨fuel - 1, by omega⟩
    have hw : (bus s.txn).result = 0 := by simpa using hres 0 (by omega)
    have hr : (bus (s.txn + 1)).result = 0 := hres 1 (by omega)
    rw [busy_wait, read_status_ok bus s hw hr]
    have hbz : ∀ b : Nat, to_char (b &&& LIDAR_STATUS_BUSY_MASK) = b % 2 := by
      intro b
      simp only [to_char, LIDAR_STATUS_BUSY_MASK, Nat.and_one_is_mod]
      omega
    simp only [hbz, wait_after]
    by_cases hk : k = 0
    · subst hk
      have hb : (bus (s.txn + 1)).data 0 % 256 % 2 = 0 := by simpa using hlast
      simp only [hb]
      refine ⟨⟨0, to_char (((bus (s.txn + 1)).data 0 % 256 * LIDAR_STATUS_HEALTH_MASK) >>> 5)⟩,
        ?_, rfl⟩
      simp [status_polls, LIDAR_ADDR, LIDAR_STATUS_REG]
    · have hb : (bus (s.txn + 1)).data 0 % 256 % 2 = 1 := by
        simpa using hbusy 0 (by omega)
      simp only [hb]
      obtain ⟨st, hst, hbusy0⟩ := ih fuel
        (s.after 2 ([Event.write LIDAR_ADDR [LIDAR_STATUS_REG] 0,
            Event.read LIDAR_ADDR 1 0 [(bus (s.txn + 1)).data 0 % 256]] ++ [Event.wait]))
        (by omega) (by omega)
        (by
          intro j hj
          have := hres (2 + j) (by omega)
          simpa [after_txn, Nat.add_assoc] using this)
        (by
          intro j hj
          have := hbusy (j + 1) (by omega)
          rw [after_txn]
          rw [show s.txn + 2 + 2 * j + 1 = s.txn + 2 * (j + 1) + 1 by omega]
          exact this)
        (by
          rw [after_txn]
          rw [show s.txn + 2 + 2 * k - 1 = s.txn + 2 * (k + 1) - 1 by omega]
          exact hlast)
      refine ⟨st, ?_, hbusy0⟩
      simp only [ne_eq, one_ne_zero, not_false_eq_true, if_true, hst, after_after, after_txn]
      simp only [status_polls, State.after, LIDAR_ADDR, LIDAR_STATUS_REG]
      congr 2
      omega

/-- The clamp of `main` is the minimum with 9999. -/
theorem clamp_eq_min (raw : Nat) :
    (if raw ≥ to_uint16 9999 then 9999 else raw) = min raw 9999 := by
  simp only [to_uint16]
  split <;> omega

/-- A good poll cycle returns, having produced exactly `cycle_events`. -/
theorem poll_cycle_ok (bus : Nat → Reply) (fuel : Nat) (vel : Int) (s : State) (k : Nat)
    (h : PollCycleOk bus s.txn k) (hf : k ≤ fuel) :
    poll_cycle bus fuel vel s =
      .ok (to_int8 (vel + to_int8 (delta_byte bus s.txn k)))
        (s.after (2 * k + 5) (cycle_events bus s.txn k vel)) := by
  obtain ⟨hk, hres, hbusy, hlast⟩ := h
  have hacq : (bus s.txn).result = 0 := by simpa using hres 0 (by omega)
  obtain ⟨st, hbw, -⟩ := busy_wait_ends bus k fuel
    (s.after 1 [Event.write LIDAR_ADDR [LIDAR_ACQ_CMD_REG, LIDAR_ACQ_CMD] 0]) hk hf
    (by
      intro j hj
      have := hres (1 + j) (by omega)
      simpa [after_txn, Nat.add_assoc] using this)
    (by
      intro j hj
      have := hbusy j (by omega)
      rw [after_txn, show s.txn + 1 + 2 * j + 1 = s.txn + 2 * j + 2 by omega]
      exact this)
    (by
      rw [after_txn, show s.txn + 1 + 2 * k - 1 = s.txn + 2 * k by omega]
      exact hlast)
  have hdw : (bus (s.txn + (1 + 2 * k))).result = 0 := hres _ (by omega)
  have hdr : (bus (s.txn + (1 + 2 * k) + 1)).result = 0 := by
    have := hres (1 + 2 * k + 1) (by omega)
    simpa [Nat.add_assoc] using this
  have hvw : (bus (s.txn + (1 + 2 * k + 2))).result = 0 := hres _ (by omega)
  have hvr : (bus (s.txn + (1 + 2 * k + 2) + 1)).result = 0 := by
    have := hres (1 + 2 * k + 2 + 1) (by omega)
    simpa [Nat.add_assoc] using this
  have e1 : s.txn + (1 + 2 * k) + 1 = s.txn + 2 * k + 2 := by omega
  have e2 : s.txn + (1 + 2 * k + 2) + 1 = s.txn + 2 * k + 4 := by omega
  simp only [poll_cycle, write_acq_cmd_ok bus s hacq, hbw, after_after, after_txn]
  rw [read_distance_ok bus _ (by simpa [after_txn] using hdw) (by simpa [after_txn] using hdr)]
  simp only [after_after, after_txn]
  rw [read_delta_velocity_ok bus _ (by simpa [after_txn] using hvw)
    (by simpa [after_txn] using hvr)]
  simp only [after_after, after_txn, e1, e2, clamp_eq_min, printf]
  rw [reassemble_bytes _ _ (Nat.mod_lt _ (by omega)) (Nat.mod_lt _ (by omega))]
  simp only [State.after, cycle_events, dist_hi, dist_lo, delta_byte, LIDAR_ADDR,
    LIDAR_ACQ_CMD_REG, LIDAR_ACQ_CMD, LIDAR_DIST_REG, LIDAR_DELTA_VELOCITY_REG, REPORT_FMT,
    List.append_assoc, List.cons_append, List.nil_append, List.singleton_append]
  congr 2
  omega

/-! ## The main loop -/

/-- Adding to a wrapped value and wrapping again is wrapping the sum. -/
theorem to_int8_add (x y : Int) : to_int8 (to_int8 x + y) = to_int8 (x + y) := by
  unfold to_int8
  omega

theorem to_int8_range (x : Int) : -128 ≤ to_int8 x ∧ to_int8 x ≤ 127 := by
  unfold to_int8
  omega

theorem to_int8_congr (x : Int) : (to_int8 x - x) % 256 = 0 := by
  unfold to_int8
  omega

theorem to_int8_of_range (x : Int) (h1 : -128 ≤ x) (h2 : x ≤ 127) : to_int8 x = x := by
  unfold to_int8
  omega

theorem accumulate_cons (vel d : Int) (ds : List Int) :
    accumulate vel (d :: ds) = accumulate (to_int8 (vel + d)) ds := rfl

/-- The accumulator holds the wrapped sum of the readings added to a wrapped start. -/
theorem accumulate_eq (ds : List Int) : ∀ vel : Int,
    accumulate (to_int8 vel) ds = to_int8 (vel + ds.sum) := by
  induction ds with
  | nil => intro vel; simp [accumulate]
  | cons d ds ih =>
    intro vel
    rw [accumulate_cons, to_int8_add, ih, List.sum_cons, Int.add_assoc]

theorem accumulate_zero (ds : List Int) : accumulate 0 ds = to_int8 ds.sum := by
  have := accumulate_eq ds 0
  simpa [to_int8] using this

/-- A run of good cycles leaves the loop at the top of the next iteration, having
produced exactly `run_events`, with the accumulator of all its readings. -/
theorem main_loop_ok (bus : Nat → Reply) (fuel : Nat) (ks : List Nat) :
    ∀ (vel : Int) (s : State), RunOk bus s.txn ks → (∀ k, k ∈ ks → k ≤ fuel) →
      main_loop bus fuel ks.length vel s =
        .ok (accumulate vel (run_deltas bus s.txn ks))
          (s.after (run_txns ks) (run_events bus s.txn ks vel)) := by
  induction ks with
  | nil =>
    intro vel s _ _
    simp [main_loop, accumulate, run_deltas, run_txns, run_events, State.after]
  | cons k ks ih =>
    intro vel s hrun hfuel
    obtain ⟨hk, hrest⟩ := hrun
    have hf : k ≤ fuel := hfuel k (List.mem_cons_self _ _)
    rw [List.length_cons, main_loop, poll_cycle_ok bus fuel vel s k hk hf]
    simp only
    rw [ih _ _ (by simpa [after_txn] using hrest)
      (fun j hj => hfuel j (List.mem_cons_of_mem _ hj))]
    simp only [after_after, after_txn, run_deltas, run_txns, run_events, accumulate_cons]

/-- The last event of a non-empty run of good cycles is the report line, and it carries
the accumulator. -/
theorem run_events_last (bus : Nat → Reply) (ks : List Nat) :
    ∀ (t : Nat) (vel : Int), ks ≠ [] →
      ∃ evs d, run_events bus t ks vel = evs ++
        [Event.printf "lidar: distance=%d cm, velocity=%d cm/s\r\n"
          [d, accumulate vel (run_deltas bus t ks)]] := by
  induction ks with
  | nil => intro t vel h; exact absurd rfl h
  | cons k ks ih =>
    intro t vel _
    by_cases hks : ks = []
    · subst hks
      refine ⟨Event.write (0x62 <<< 1) [0x00, 0x04] 0 :: status_polls bus (t + 1) k ++
        [Event.write (0x62 <<< 1) [0x8f] 0,
         Event.read (0x62 <<< 1) 2 0 [dist_hi bus t k, dist_lo bus t k],
         Event.write (0x62 <<< 1) [0x09] 0,
         Event.read (0x62 <<< 1) 1 0 [delta_byte bus t k]],
        ((min (256 * dist_hi bus t k + dist_lo bus t k) 9999 : Nat) : Int), ?_⟩
      simp [run_events, cycle_events, run_deltas, accumulate]
    · obtain ⟨evs, d, h⟩ := ih (t + (2 * k + 5))
        (to_int8 (vel + to_int8 (delta_byte bus t k))) hks
      refine ⟨cycle_events bus t k vel ++ evs, d, ?_⟩
      simp only [run_events, h, run_deltas, accumulate_cons, List.append_assoc]

/-! ## Decoding of the registers -/

/-- C1: when both bus transactions of `lidar_read_distance` succeed and the read returns
the bytes `hi` then `lo`, each in 0..255, the function returns `(hi << 8) | lo`, which is
`256 * hi + lo` and fits an unsigned 16-bit integer; it makes exactly the two
transactions. -/
theorem read_distance_reassembles (bus : Nat → Reply) (s : State) (hi lo : Nat)
    (hhi : hi < 256) (hlo : lo < 256)
    (hw : (bus s.txn).result = 0) (hr : (bus (s.txn + 1)).result = 0)
    (h0 : (bus (s.txn + 1)).data 0 = hi) (h1 : (bus (s.txn + 1)).data 1 = lo) :
    lidar_read_distance bus s =
        .ok ((hi <<< 8) ||| lo)
          (s.after 2 [Event.write (0x62 <<< 1) [0x8f] 0,
            Event.read (0x62 <<< 1) 2 0 [hi, lo]])
      ∧ (hi <<< 8) ||| lo = 256 * hi + lo
      ∧ (hi <<< 8) ||| lo < 65536 := by
  have hval : (hi <<< 8) ||| lo = 256 * hi + lo := by
    have := reassemble_bytes hi lo hhi hlo
    rw [Nat.lor_comm, to_uint16] at this
    have h2 : (hi <<< 8 ||| lo) < 65536 := by
      have h8 : hi <<< 8 < 2 ^ 16 := by rw [Nat.shiftLeft_eq]; omega
      exact Nat.or_lt_two_pow h8 (by omega)
    omega
  refine ⟨?_, hval, by omega⟩
  rw [read_distance_ok bus s hw hr, h0, h1, Nat.mod_eq_of_lt hhi, Nat.mod_eq_of_lt hlo,
    reassemble_bytes hi lo hhi hlo, hval]
  rfl

/-- C1 at the bytes 0x27, 0x10: the function returns 10000. -/
theorem read_distance_reassembles_witness :
    lidar_read_distance (bus_of [(0, []), (0, [0x27, 0x10])]) { txn := 0, trace := [] } =
      .ok 10000 { txn := 2, trace := [Event.write 196 [0x8f] 0,
        Event.read 196 2 0 [0x27, 0x10]] } :=
  (read_distance_reassembles (bus_of [(0, []), (0, [0x27, 0x10])]) { txn := 0, trace := [] }
    0x27 0x10 (by decide) (by decide) (by decide) (by decide) (by decide) (by decide)).1

/-- C3: when both bus transactions of `lidar_read_delta_velocity` succeed and the read
returns the byte `b` in 0..255, the function returns `b` read as a two's-complement signed
8-bit integer: `b` when `b < 128`, `b - 256` otherwise; it makes exactly the two
transactions. -/
theorem read_delta_velocity_decodes (bus : Nat → Reply) (s : State) (b : Nat)
    (hb : b < 256)
    (hw : (bus s.txn).result = 0) (hr : (bus (s.txn + 1)).result = 0)
    (h0 : (bus (s.txn + 1)).data 0 = b) :
    lidar_read_delta_velocity bus s =
      .ok (if b < 128 then (b : Int) else (b : Int) - 256)
        (s.after 2 [Event.write (0x62 <<< 1) [0x09] 0,
          Event.read (0x62 <<< 1) 1 0 [b]]) := by
  rw [read_delta_velocity_ok bus s hw hr, h0, Nat.mod_eq_of_lt hb, to_int8_byte b hb]
  rfl

/-- C3 at the bytes 0xFF, 0x7F and 0x80: they decode to -1, 127 and -128. -/
theorem read_delta_velocity_decodes_witness :
    lidar_read_delta_velocity (bus_of [(0, []), (0, [0xFF])]) { txn := 0, trace := [] } =
        .ok (-1) { txn := 2, trace := [Event.write 196 [0x09] 0, Event.read 196 1 0 [0xFF]] }
      ∧ lidar_read_delta_velocity (bus_of [(0, []), (0, [0x7F])]) { txn := 0, trace := [] } =
        .ok 127 { txn := 2, trace := [Event.write 196 [0x09] 0, Event.read 196 1 0 [0x7F]] }
      ∧ lidar_read_delta_velocity (bus_of [(0, []), (0, [0x80])]) { txn := 0, trace := [] } =
        .ok (-128) { txn := 2, trace := [Event.write 196 [0x09] 0, Event.read 196 1 0 [0x80]] } :=
  ⟨read_delta_velocity_decodes (bus_of [(0, []), (0, [0xFF])]) { txn := 0, trace := [] } 0xFF
      (by decide) (by decide) (by decide) (by decide),
   read_delta_velocity_decodes (bus_of [(0, []), (0, [0x7F])]) { txn := 0, trace := [] } 0x7F
      (by decide) (by decide) (by decide) (by decide),
   read_delta_velocity_decodes (bus_of [(0, []), (0, [0x80])]) { txn := 0, trace := [] } 0x80
      (by decide) (by decide) (by decide) (by decide)⟩

/-- C4 fails on the code: for the status byte 0x01, whose bit 5 (mask 0x20) is clear,
`lidar_read_status` stores the nonzero value 1 in the healthy flag; for every byte the
flag is the byte itself, not its bit 5. -/
theorem read_status_healthy_not_bit5 :
    lidar_read_status (bus_of [(0, []), (0, [0x01])]) { txn := 0, trace := [] } =
        .ok { busy := 1, healthy := 1 }
          { txn := 2, trace := [Event.write 196 [0x01] 0, Event.read 196 1 0 [0x01]] }
      ∧ 0x01 &&& LIDAR_STATUS_HEALTH_MASK = 0 := by
  decide

/-- C9: when both bus transactions of `lidar_read_status` succeed and the read returns
the byte `b` in 0..255, the healthy flag stored is `(b * 0x20) >> 5` cut to a `char`,
which is `b` itself, so it is nonzero exactly when `b` is nonzero; and `lidar_die` exits
with the line "lidar: sensor is not healthy" exactly when `b` is 0, returning
otherwise. -/
theorem read_status_healthy_is_byte (bus : Nat → Reply) (s : State) (b : Nat)
    (hb : b < 256)
    (hw : (bus s.txn).result = 0) (hr : (bus (s.txn + 1)).result = 0)
    (h0 : (bus (s.txn + 1)).data 0 = b) :
    (∃ st s1, lidar_read_status bus s = .ok st s1
        ∧ st.healthy = ((b * 0x20) >>> 5) % 256
        ∧ st.healthy = b
        ∧ (st.healthy ≠ 0 ↔ b ≠ 0))
      ∧ (b = 0 → lidar_die bus s = .exited (s.after 2
          [Event.write (0x62 <<< 1) [0x01] 0, Event.read (0x62 <<< 1) 1 0 [0],
           Event.printf "lidar: sensor is not healthy" [], Event.printf "\r\n" [],
           Event.exit 1]))
      ∧ (b ≠ 0 → lidar_die bus s = .ok () (s.after 2
          [Event.write (0x62 <<< 1) [0x01] 0, Event.read (0x62 <<< 1) 1 0 [b]])) := by
  have hst := read_status_ok bus s hw hr
  rw [h0, Nat.mod_eq_of_lt hb, health_expr b hb] at hst
  refine ⟨⟨_, _, hst, ?_, rfl, Iff.rfl⟩, ?_, ?_⟩
  · have := health_expr b hb
    simpa [to_char, LIDAR_STATUS_HEALTH_MASK] using this.symm
  · intro hz
    subst hz
    simp [lidar_die, hst, die, State.after, LIDAR_ADDR, LIDAR_STATUS_REG]
  · intro hnz
    simp [lidar_die, hst, hnz, State.after, LIDAR_ADDR, LIDAR_STATUS_REG]

/-- C9 at the status bytes 0x00 and 0x01: the first is fatal, the second, whose bit 5 is
clear, passes the health check. -/
theorem read_status_healthy_is_byte_witness :
    lidar_die (bus_of [(0, []), (0, [0x00])]) { txn := 0, trace := [] } =
        .exited { txn := 2, trace :=
          [Event.write 196 [0x01] 0, Event.read 196 1 0 [0],
           Event.printf "lidar: sensor is not healthy" [], Event.printf "\r\n" [],
           Event.exit 1] }
      ∧ lidar_die (bus_of [(0, []), (0, [0x01])]) { txn := 0, trace := [] } =
        .ok () { txn := 2, trace := [Event.write 196 [0x01] 0, Event.read 196 1 0 [1]] } :=
  ⟨(read_status_healthy_is_byte (bus_of [(0, []), (0, [0x00])]) { txn := 0, trace := [] } 0
      (by decide) (by decide) (by decide) (by decide)).2.1 rfl,
   (read_status_healthy_is_byte (bus_of [(0, []), (0, [0x01])]) { txn := 0, trace := [] } 1
      (by decide) (by decide) (by decide) (by decide)).2.2 (by decide)⟩

/-! ## The poll cycle -/

/-- One more status poll at the end of the loop. -/
theorem status_polls_succ (bus : Nat → Reply) (k : Nat) : ∀ t : Nat,
    status_polls bus t (k + 1) = status_polls bus t k ++
      [Event.write (0x62 <<< 1) [0x01] 0,
       Event.read (0x62 <<< 1) 1 0 [(bus (t + 2 * k + 1)).data 0 % 256],
       Event.wait] := by
  induction k with
  | zero => intro t; simp [status_polls]
  | succ k ih =>
    intro t
    rw [status_polls, ih (t + 2)]
    simp only [status_polls, List.cons_append]
    rw [show t + 2 + 2 * k + 1 = t + 2 * (k + 1) + 1 by omega]

/-- The events of `k` status polls are `k` blocks: select, read, wait. -/
theorem status_polls_eq (bus : Nat → Reply) (t k : Nat) :
    status_polls bus t k = (List.range k).flatMap (fun j =>
      [Event.write (0x62 <<< 1) [0x01] 0,
       Event.read (0x62 <<< 1) 1 0 [(bus (t + 2 * j + 1)).data 0 % 256],
       Event.wait]) := by
  induction k with
  | zero => simp [status_polls]
  | succ k ih => rw [status_polls_succ, ih, List.range_succ, List.flatMap_append]; simp

/-- C8: in a poll cycle in which every bus transaction succeeds and the `k`-th status
read is the first to report not-busy, the library calls are exactly: the write of
{0x00, 0x04}; `k` times the write of 0x01, a read of 1 byte and the wait; the write of
0x8F and a read of 2 bytes; the write of 0x09 and a read of 1 byte; one report line.
Every transaction is addressed to `0x62 << 1`, and the accumulator returned is the one
entered plus the single delta read after the distance, which is also the one printed. -/
theorem poll_cycle_trace (bus : Nat → Reply) (fuel : Nat) (vel : Int) (s : State) (k : Nat)
    (h : PollCycleOk bus s.txn k) (hf : k ≤ fuel) :
    poll_cycle bus fuel vel s =
      .ok (to_int8 (vel + to_int8 ((bus (s.txn + 2 * k + 4)).data 0 % 256 : Nat)))
        { txn := s.txn + (2 * k + 5),
          trace := s.trace ++
            ([Event.write (0x62 <<< 1) [0x00, 0x04] 0] ++
             (List.range k).flatMap (fun j =>
               [Event.write (0x62 <<< 1) [0x01] 0,
                Event.read (0x62 <<< 1) 1 0 [(bus (s.txn + 2 * j + 2)).data 0 % 256],
                Event.wait]) ++
             [Event.write (0x62 <<< 1) [0x8f] 0,
              Event.read (0x62 <<< 1) 2 0
                [(bus (s.txn + 2 * k + 2)).data 0 % 256, (bus (s.txn + 2 * k + 2)).data 1 % 256],
              Event.write (0x62 <<< 1) [0x09] 0,
              Event.read (0x62 <<< 1) 1 0 [(bus (s.txn + 2 * k + 4)).data 0 % 256],
              Event.printf "lidar: distance=%d cm, velocity=%d cm/s\r\n"
                [((min (256 * ((bus (s.txn + 2 * k + 2)).data 0 % 256)
                    + (bus (s.txn + 2 * k + 2)).data 1 % 256) 9999 : Nat) : Int),
                 to_int8 (vel + to_int8 ((bus (s.txn + 2 * k + 4)).data 0 % 256 : Nat))]]) } := by
  rw [poll_cycle_ok bus fuel vel s k h hf]
  simp only [State.after, cycle_events, status_polls_eq, dist_hi, dist_lo, delta_byte,
    List.singleton_append, List.cons_append, List.append_assoc, List.nil_append]
  simp only [show ∀ j, s.txn + 1 + 2 * j + 1 = s.txn + 2 * j + 2 from fun j => by omega]

/-- C8 at a cycle whose second status read is the first not busy. -/
theorem poll_cycle_trace_witness :
    poll_cycle (bus_of [(0, []), (0, []), (0, [0x01]), (0, []), (0, [0x00]),
        (0, []), (0, [0x01, 0x02]), (0, []), (0, [0x05])]) 2 0 { txn := 0, trace := [] } =
      .ok 5 { txn := 9, trace :=
        [Event.write 196 [0x00, 0x04] 0,
         Event.write 196 [0x01] 0, Event.read 196 1 0 [0x01], Event.wait,
         Event.write 196 [0x01] 0, Event.read 196 1 0 [0x00], Event.wait,
         Event.write 196 [0x8f] 0, Event.read 196 2 0 [0x01, 0x02],
         Event.write 196 [0x09] 0, Event.read 196 1 0 [0x05],
         Event.printf "lidar: distance=%d cm, velocity=%d cm/s\r\n" [258, 5]] } :=
  poll_cycle_trace (bus_of [(0, []), (0, []), (0, [0x01]), (0, []), (0, [0x00]),
    (0, []), (0, [0x01, 0x02]), (0, []), (0, [0x05])]) 2 0 { txn := 0, trace := [] } 2
    (by decide) (by decide)

/-- C2: in a poll cycle in which every bus transaction succeeds, let `r` be the raw
value of the distance read (`lidar_read_distance` returns it at that point of the cycle).
The report line of the cycle carries 9999 when `r ≥ 9999` and `r` itself when `r < 9999`,
that is `min r 9999`, a value in [0, 9999]. -/
theorem poll_cycle_clamps_distance (bus : Nat → Reply) (fuel : Nat) (vel : Int) (s : State)
    (k r : Nat) (h : PollCycleOk bus s.txn k) (hf : k ≤ fuel)
    (hr : r = 256 * dist_hi bus s.txn k + dist_lo bus s.txn k) :
    (∀ s2 : State, s2.txn = s.txn + 2 * k + 1 →
        lidar_read_distance bus s2 = .ok r (s2.after 2
          [Event.write (0x62 <<< 1) [0x8f] 0,
           Event.read (0x62 <<< 1) 2 0 [dist_hi bus s.txn k, dist_lo bus s.txn k]]))
      ∧ poll_cycle bus fuel vel s =
        .ok (to_int8 (vel + to_int8 (delta_byte bus s.txn k)))
          (s.after (2 * k + 5)
            (Event.write (0x62 <<< 1) [0x00, 0x04] 0 ::
              status_polls bus (s.txn + 1) k ++
              [Event.write (0x62 <<< 1) [0x8f] 0,
               Event.read (0x62 <<< 1) 2 0 [dist_hi bus s.txn k, dist_lo bus s.txn k],
               Event.write (0x62 <<< 1) [0x09] 0,
               Event.read (0x62 <<< 1) 1 0 [delta_byte bus s.txn k],
               Event.printf "lidar: distance=%d cm, velocity=%d cm/s\r\n"
                 [((if r ≥ 9999 then 9999 else r : Nat) : Int),
                  to_int8 (vel + to_int8 (delta_byte bus s.txn k))]]))
      ∧ (if r ≥ 9999 then 9999 else r) = min r 9999
      ∧ (if r ≥ 9999 then 9999 else r) ≤ 9999 := by
  have hmin : (if r ≥ 9999 then 9999 else r) = min r 9999 := by split <;> omega
  refine ⟨?_, ?_, hmin, by rw [hmin]; omega⟩
  · intro s2 hs2
    obtain ⟨-, hres, -, -⟩ := h
    have hw : (bus s2.txn).result = 0 := by
      have := hres (2 * k + 1) (by omega)
      rw [hs2]
      simpa [Nat.add_assoc] using this
    have hrd : (bus (s2.txn + 1)).result = 0 := by
      have := hres (2 * k + 2) (by omega)
      rw [hs2]
      simpa [Nat.add_assoc] using this
    rw [read_distance_ok bus s2 hw hrd, hs2,
      reassemble_bytes _ _ (Nat.mod_lt _ (by omega)) (Nat.mod_lt _ (by omega)), hr]
    rfl
  · rw [poll_cycle_ok bus fuel vel s k h hf, hmin, hr]
    rfl

/-- C2 at the distance bytes 0x27, 0x10: the raw value 10000 is reported as 9999. -/
theorem poll_cycle_clamps_distance_witness :
    poll_cycle (bus_of [(0, []), (0, []), (0, [0x00]), (0, []), (0, [0x27, 0x10]),
        (0, []), (0, [0x00])]) 1 0 { txn := 0, trace := [] } =
      .ok 0 { txn := 7, trace :=
        [Event.write 196 [0x00, 0x04] 0,
         Event.write 196 [0x01] 0, Event.read 196 1 0 [0x00], Event.wait,
         Event.write 196 [0x8f] 0, Event.read 196 2 0 [0x27, 0x10],
         Event.write 196 [0x09] 0, Event.read 196 1 0 [0x00],
         Event.printf "lidar: distance=%d cm, velocity=%d cm/s\r\n" [9999, 0]] } :=
  (poll_cycle_clamps_distance (bus_of [(0, []), (0, []), (0, [0x00]), (0, []),
    (0, [0x27, 0x10]), (0, []), (0, [0x00])]) 1 0 { txn := 0, trace := [] } 1 10000
    (by decide) (by decide) (by decide)).2.1

/-! ## The velocity accumulator -/

/-- C5 as stated fails: with the delta readings 100 and 100 the second report line
carries -56, not the integer sum 200. -/
theorem velocity_sum_overflows :
    RunOk (bus_of [(0, []), (0, []), (0, [0]), (0, []), (0, [0, 50]), (0, []), (0, [100]),
        (0, []), (0, []), (0, [0]), (0, []), (0, [0, 50]), (0, []), (0, [100])]) 0 [1, 1]
      ∧ run_deltas (bus_of [(0, []), (0, []), (0, [0]), (0, []), (0, [0, 50]), (0, []),
          (0, [100]), (0, []), (0, []), (0, [0]), (0, []), (0, [0, 50]), (0, []),
          (0, [100])]) 0 [1, 1] = [100, 100]
      ∧ main (bus_of [(0, []), (0, []), (0, [0]), (0, []), (0, [0, 50]), (0, []), (0, [100]),
          (0, []), (0, []), (0, [0]), (0, []), (0, [0, 50]), (0, []), (0, [100])]) 1 2 =
        .ok (-56) { txn := 14, trace :=
          [Event.write 196 [0x00, 0x04] 0,
           Event.write 196 [0x01] 0, Event.read 196 1 0 [0], Event.wait,
           Event.write 196 [0x8f] 0, Event.read 196 2 0 [0, 50],
           Event.write 196 [0x09] 0, Event.read 196 1 0 [100],
           Event.printf "lidar: distance=%d cm, velocity=%d cm/s\r\n" [50, 100],
           Event.write 196 [0x00, 0x04] 0,
           Event.write 196 [0x01] 0, Event.read 196 1 0 [0], Event.wait,
           Event.write 196 [0x8f] 0, Event.read 196 2 0 [0, 50],
           Event.write 196 [0x09] 0, Event.read 196 1 0 [100],
           Event.printf "lidar: distance=%d cm, velocity=%d cm/s\r\n" [50, -56]] }
      ∧ (-56 : Int) ≠ 100 + 100 := by
  refine ⟨⟨by decide, by decide, trivial⟩, by decide, by decide, by decide⟩

/-- C5, amended: starting from an accumulator of 0, after `n ≥ 1` poll cycles in which
every bus transaction succeeds, with signed 8-bit delta readings d1..dn whose integer
sum lies in [-128, 127], the last event is the report line of cycle `n` and the
velocity it carries is d1 + ... + dn. -/
theorem reported_velocity_is_sum (bus : Nat → Reply) (fuel : Nat) (ks : List Nat)
    (hne : ks ≠ []) (hrun : RunOk bus 0 ks) (hfuel : ∀ k, k ∈ ks → k ≤ fuel)
    (hlo : -128 ≤ (run_deltas bus 0 ks).sum) (hhi : (run_deltas bus 0 ks).sum ≤ 127) :
    ∃ evs d, main bus fuel ks.length =
      .ok (run_deltas bus 0 ks).sum
        { txn := run_txns ks,
          trace := evs ++ [Event.printf "lidar: distance=%d cm, velocity=%d cm/s\r\n"
            [d, (run_deltas bus 0 ks).sum]] } := by
  obtain ⟨evs, d, hev⟩ := run_events_last bus ks 0 0 hne
  refine ⟨evs, d, ?_⟩
  have hml := main_loop_ok bus fuel ks 0 { txn := 0, trace := [] } hrun hfuel
  rw [main, hml]
  simp only [hev, accumulate_zero, to_int8_of_range _ hlo hhi, State.after, List.nil_append,
    Nat.zero_add]

/-- C5, amended, at the delta bytes 5, 0xFD (-3) and 10: the third report carries 12. -/
theorem reported_velocity_is_sum_witness :
    run_deltas (bus_of [(0, []), (0, []), (0, [0]), (0, []), (0, [0, 50]), (0, []), (0, [5]),
        (0, []), (0, []), (0, [0]), (0, []), (0, [0, 50]), (0, []), (0, [0xFD]),
        (0, []), (0, []), (0, [0]), (0, []), (0, [0, 50]), (0, []), (0, [10])]) 0 [1, 1, 1]
        = [5, -3, 10]
      ∧ ∃ evs d, main (bus_of [(0, []), (0, []), (0, [0]), (0, []), (0, [0, 50]), (0, []),
          (0, [5]), (0, []), (0, []), (0, [0]), (0, []), (0, [0, 50]), (0, []), (0, [0xFD]),
          (0, []), (0, []), (0, [0]), (0, []), (0, [0, 50]), (0, []), (0, [10])]) 1 3 =
        .ok 12 { txn := 21, trace :=
          evs ++ [Event.printf "lidar: distance=%d cm, velocity=%d cm/s\r\n" [d, 12]] } :=
  ⟨by decide,
   reported_velocity_is_sum (bus_of [(0, []), (0, []), (0, [0]), (0, []), (0, [0, 50]),
     (0, []), (0, [5]), (0, []), (0, []), (0, [0]), (0, []), (0, [0, 50]), (0, []),
     (0, [0xFD]), (0, []), (0, []), (0, [0]), (0, []), (0, [0, 50]), (0, []), (0, [10])])
     1 [1, 1, 1] (by decide) ⟨by decide, by decide, by decide, trivial⟩ (by decide)
     (by decide) (by decide)⟩

/-- C10: the accumulator is a signed 8-bit integer.  After `n ≥ 1` poll cycles in which
every bus transaction succeeds, with delta readings d1..dn, the last event is the report
line of cycle `n`; the velocity `v` it carries lies in [-128, 127] and is the integer sum
d1 + ... + dn wrapped modulo 256 into that range.  For the readings 127 and 1 the report
carries -128, which is not the integer sum. -/
theorem reported_velocity_wraps (bus : Nat → Reply) (fuel : Nat) (ks : List Nat)
    (hne : ks ≠ []) (hrun : RunOk bus 0 ks) (hfuel : ∀ k, k ∈ ks → k ≤ fuel) :
    (∃ evs d v, main bus fuel ks.length =
        .ok v { txn := run_txns ks, trace :=
          evs ++ [Event.printf "lidar: distance=%d cm, velocity=%d cm/s\r\n" [d, v]] }
      ∧ -128 ≤ v ∧ v ≤ 127
      ∧ (v - (run_deltas bus 0 ks).sum) % 256 = 0
      ∧ v = ((run_deltas bus 0 ks).sum + 128) % 256 - 128)
    ∧ (∃ (bus2 : Nat → Reply) (fuel2 : Nat) (ks2 : List Nat),
        RunOk bus2 0 ks2 ∧ (∀ k, k ∈ ks2 → k ≤ fuel2) ∧ run_deltas bus2 0 ks2 = [127, 1]
        ∧ ∃ evs d, main bus2 fuel2 ks2.length =
            .ok (-128) { txn := run_txns ks2, trace :=
              evs ++ [Event.printf "lidar: distance=%d cm, velocity=%d cm/s\r\n" [d, -128]] }
          ∧ (-128 : Int) ≠ (run_deltas bus2 0 ks2).sum) := by
  constructor
  · obtain ⟨evs, d, hev⟩ := run_events_last bus ks 0 0 hne
    refine ⟨evs, d, to_int8 (run_deltas bus 0 ks).sum, ?_, (to_int8_range _).1,
      (to_int8_range _).2, to_int8_congr _, rfl⟩
    have hml := main_loop_ok bus fuel ks 0 { txn := 0, trace := [] } hrun hfuel
    rw [main, hml]
    simp only [hev, accumulate_zero, State.after, List.nil_append, Nat.zero_add]
  · refine ⟨bus_of [(0, []), (0, []), (0, [0]), (0, []), (0, [0, 50]), (0, []), (0, [127]),
      (0, []), (0, []), (0, [0]), (0, []), (0, [0, 50]), (0, []), (0, [1])], 1, [1, 1],
      ⟨by decide, by decide, trivial⟩, by decide, by decide,
      [Event.write 196 [0x00, 0x04] 0,
       Event.write 196 [0x01] 0, Event.read 196 1 0 [0], Event.wait,
       Event.write 196 [0x8f] 0, Event.read 196 2 0 [0, 50],
       Event.write 196 [0x09] 0, Event.read 196 1 0 [127],
       Event.printf "lidar: distance=%d cm, velocity=%d cm/s\r\n" [50, 127],
       Event.write 196 [0x00, 0x04] 0,
       Event.write 196 [0x01] 0, Event.read 196 1 0 [0], Event.wait,
       Event.write 196 [0x8f] 0, Event.read 196 2 0 [0, 50],
       Event.write 196 [0x09] 0, Event.read 196 1 0 [1]], 50, by decide, by decide⟩

/-- C10 at the delta bytes 0x7F and 0x01: the second report carries -128. -/
theorem reported_velocity_wraps_witness :
    ∃ evs d v, main (bus_of [(0, []), (0, []), (0, [0]), (0, []), (0, [0, 50]), (0, []),
        (0, [0x7F]), (0, []), (0, []), (0, [0]), (0, []), (0, [0, 50]), (0, []),
        (0, [0x01])]) 1 2 =
        .ok v { txn := 14, trace :=
          evs ++ [Event.printf "lidar: distance=%d cm, velocity=%d cm/s\r\n" [d, v]] }
      ∧ -128 ≤ v ∧ v ≤ 127 ∧ (v - (127 + 1)) % 256 = 0 ∧ v = -128 :=
  (reported_velocity_wraps (bus_of [(0, []), (0, []), (0, [0]), (0, []), (0, [0, 50]),
    (0, []), (0, [0x7F]), (0, []), (0, []), (0, [0]), (0, []), (0, [0, 50]), (0, []),
    (0, [0x01])]) 1 [1, 1] (by decide) ⟨by decide, by decide, trivial⟩ (by decide)).1

/-! ## The order of status and distance reads -/

/-- The busy flag stored is bit 0 of the status byte. -/
theorem busy_flag_eq (b : Nat) : to_char (b &&& LIDAR_STATUS_BUSY_MASK) = b % 2 := by
  simp only [to_char, LIDAR_STATUS_BUSY_MASK, Nat.and_one_is_mod]
  omega

theorem noDistSelect_append (l1 l2 : List Event) (h1 : NoDistSelect l1)
    (h2 : NoDistSelect l2) : NoDistSelect (l1 ++ l2) := by
  intro e he r
  rcases List.mem_append.1 he with h | h
  · exact h1 e h r
  · exact h2 e h r

/-- A list splits in one way only around its single element of a kind. -/
theorem split_unique {α : Type} (p : α → Prop) (d1 d2 : α) (hd1 : p d1) :
    ∀ (A X B Y : List α), (∀ e, e ∈ X → ¬ p e) → (∀ e, e ∈ Y → ¬ p e) →
      A ++ d1 :: B = X ++ d2 :: Y → A = X := by
  intro A
  induction A with
  | nil =>
    intro X B Y hX _ h
    cases X with
    | nil => rfl
    | cons x X =>
      simp only [List.nil_append, List.cons_append, List.cons.injEq] at h
      exact absurd hd1 (h.1 ▸ hX x (List.mem_cons_self _ _))
  | cons a A ih =>
    intro X B Y hX hY h
    cases X with
    | nil =>
      simp only [List.nil_append, List.cons_append, List.cons.injEq] at h
      have hmem : d1 ∈ Y := by rw [← h.2]; simp
      exact absurd hd1 (hY d1 hmem)
    | cons x X =>
      simp only [List.cons_append, List.cons.injEq] at h
      rw [h.1, ih X B Y (fun e he => hX e (List.mem_cons_of_mem _ he)) hY h.2]

/-- The busy-wait loop only adds events, none of them a distance select, and when it
returns its last three events are a successful status poll whose byte has bit 0 clear. -/
theorem busy_wait_shape (bus : Nat → Reply) (fuel : Nat) :
    ∀ s : State, ∃ evs, (busy_wait bus fuel s).state.trace = s.trace ++ evs
      ∧ NoDistSelect evs
      ∧ ∀ st s1, busy_wait bus fuel s = .ok st s1 →
          st.busy = 0 ∧ ∃ evs1 b, b % 2 = 0 ∧ evs = evs1 ++
            [Event.write (0x62 <<< 1) [0x01] 0, Event.read (0x62 <<< 1) 1 0 [b],
             Event.wait] := by
  induction fuel with
  | zero =>
    intro s
    refine ⟨[], by simp [busy_wait, Outcome.state], by intro e he; simp at he, ?_⟩
    intro st s1 h
    simp [busy_wait] at h
  | succ fuel ih =>
    intro s
    by_cases hw : (bus s.txn).result = 0
    · by_cases hr : (bus (s.txn + 1)).result = 0
      · rw [busy_wait, read_status_ok bus s hw hr]
        simp only [busy_flag_eq, wait_after]
        by_cases hb : (bus (s.txn + 1)).data 0 % 256 % 2 = 0
        · simp only [hb, ne_eq, not_true_eq_false, if_false]
          refine ⟨_, rfl, ?_, ?_⟩
          · intro e he r
            simp [LIDAR_ADDR, LIDAR_STATUS_REG] at he
            rcases he with h | h | h <;> simp [h]
          · intro st s1 h
            simp only [Outcome.ok.injEq] at h
            refine ⟨by rw [← h.1], [], _, hb, ?_⟩
            simp [LIDAR_ADDR, LIDAR_STATUS_REG]
        · simp only [hb, ne_eq, not_false_eq_true, if_true]
          obtain ⟨evs, htr, hno, hok⟩ := ih (s.after 2
            ([Event.write LIDAR_ADDR [LIDAR_STATUS_REG] 0,
              Event.read LIDAR_ADDR 1 0 [(bus (s.txn + 1)).data 0 % 256]] ++ [Event.wait]))
          refine ⟨[Event.write LIDAR_ADDR [LIDAR_STATUS_REG] 0,
              Event.read LIDAR_ADDR 1 0 [(bus (s.txn + 1)).data 0 % 256], Event.wait] ++ evs,
            by rw [htr]; simp [State.after], ?_, ?_⟩
          · refine noDistSelect_append _ _ ?_ hno
            intro e he r
            simp [LIDAR_ADDR, LIDAR_STATUS_REG] at he
            rcases he with h | h | h <;> simp [h]
          · intro st s1 h
            obtain ⟨hbusy, evs1, b, hb2, hev⟩ := hok st s1 h
            exact ⟨hbusy, [Event.write LIDAR_ADDR [LIDAR_STATUS_REG] 0,
              Event.read LIDAR_ADDR 1 0 [(bus (s.txn + 1)).data 0 % 256], Event.wait] ++ evs1,
              b, hb2, by rw [hev, List.append_assoc]⟩
      · rw [busy_wait, read_status_read_fails bus s hw hr]
        refine ⟨_, rfl, ?_, by intro st s1 h; simp at h⟩
        intro e he r
        simp [LIDAR_ADDR, LIDAR_STATUS_REG, diagnostic] at he
        rcases he with h | h | h | h | h <;> simp [h]
    · rw [busy_wait, read_status_write_fails bus s hw]
      refine ⟨_, rfl, ?_, by intro st s1 h; simp at h⟩
      intro e he r
      simp [LIDAR_ADDR, LIDAR_STATUS_REG, diagnostic] at he
      rcases he with h | h | h | h <;> simp [h]

/-- Whatever happens in a poll cycle, its events either hold no distance select, or
hold exactly one, placed right after a successful status poll whose byte has bit 0
clear, the acquire command and any earlier polls coming before. -/
theorem poll_cycle_shape (bus : Nat → Reply) (fuel : Nat) (vel : Int) (s : State) :
    ∃ X, (poll_cycle bus fuel vel s).state.trace = s.trace ++ X
      ∧ (NoDistSelect X ∨ ∃ evs b r tl, b % 2 = 0
          ∧ X = (Event.write (0x62 <<< 1) [0x00, 0x04] 0 :: evs ++
              [Event.write (0x62 <<< 1) [0x01] 0, Event.read (0x62 <<< 1) 1 0 [b],
               Event.wait]) ++ Event.write (0x62 <<< 1) [0x8f] r :: tl
          ∧ NoDistSelect (Event.write (0x62 <<< 1) [0x00, 0x04] 0 :: evs ++
              [Event.write (0x62 <<< 1) [0x01] 0, Event.read (0x62 <<< 1) 1 0 [b],
               Event.wait])
          ∧ NoDistSelect tl) := by
  by_cases hacq : (bus s.txn).result = 0
  · obtain ⟨evs, htr, hno, hok⟩ := busy_wait_shape bus fuel
      (s.after 1 [Event.write LIDAR_ADDR [LIDAR_ACQ_CMD_REG, LIDAR_ACQ_CMD] 0])
    have hacq0 : NoDistSelect [Event.write (0x62 <<< 1) [0x00, 0x04] 0] := by
      simp [NoDistSelect]
    cases hbw : busy_wait bus fuel
        (s.after 1 [Event.write LIDAR_ADDR [LIDAR_ACQ_CMD_REG, LIDAR_ACQ_CMD] 0]) with
    | exited s2 =>
      rw [hbw] at htr
      refine ⟨Event.write (0x62 <<< 1) [0x00, 0x04] 0 :: evs, ?_,
        Or.inl (noDistSelect_append _ _ hacq0 hno)⟩
      simp only [poll_cycle, write_acq_cmd_ok bus s hacq, hbw]
      simp only [Outcome.state] at htr ⊢
      rw [htr]
      simp [State.after, LIDAR_ADDR, LIDAR_ACQ_CMD_REG, LIDAR_ACQ_CMD]
    | running s2 =>
      rw [hbw] at htr
      refine ⟨Event.write (0x62 <<< 1) [0x00, 0x04] 0 :: evs, ?_,
        Or.inl (noDistSelect_append _ _ hacq0 hno)⟩
      simp only [poll_cycle, write_acq_cmd_ok bus s hacq, hbw]
      simp only [Outcome.state] at htr ⊢
      rw [htr]
      simp [State.after, LIDAR_ADDR, LIDAR_ACQ_CMD_REG, LIDAR_ACQ_CMD]
    | ok st s2 =>
      rw [hbw] at htr
      obtain ⟨-, evs1, b, hb, hev⟩ := hok st s2 hbw
      have hs2 : s2.trace = s.trace ++ (Event.write (0x62 <<< 1) [0x00, 0x04] 0 :: evs1 ++
          [Event.write (0x62 <<< 1) [0x01] 0, Event.read (0x62 <<< 1) 1 0 [b],
           Event.wait]) := by
        have := htr
        simp only [Outcome.state] at this
        rw [this, hev]
        simp [State.after, LIDAR_ADDR, LIDAR_ACQ_CMD_REG, LIDAR_ACQ_CMD]
      have hpre : NoDistSelect (Event.write (0x62 <<< 1) [0x00, 0x04] 0 :: evs1 ++
          [Event.write (0x62 <<< 1) [0x01] 0, Event.read (0x62 <<< 1) 1 0 [b],
           Event.wait]) := by
        have := noDistSelect_append _ _ hacq0 hno
        rw [hev] at this
        simpa using this
      have finish : ∀ (T : List Event), (∃ r tl, NoDistSelect tl ∧
          T = s2.trace ++ Event.write (0x62 <<< 1) [0x8f] r :: tl) →
          ∃ X, T = s.trace ++ X
            ∧ (NoDistSelect X ∨ ∃ evs b r tl, b % 2 = 0
              ∧ X = (Event.write (0x62 <<< 1) [0x00, 0x04] 0 :: evs ++
                  [Event.write (0x62 <<< 1) [0x01] 0, Event.read (0x62 <<< 1) 1 0 [b],
                   Event.wait]) ++ Event.write (0x62 <<< 1) [0x8f] r :: tl
              ∧ NoDistSelect (Event.write (0x62 <<< 1) [0x00, 0x04] 0 :: evs ++
                  [Event.write (0x62 <<< 1) [0x01] 0, Event.read (0x62 <<< 1) 1 0 [b],
                   Event.wait])
              ∧ NoDistSelect tl) := by
        intro T ⟨r, tl, htl, ho⟩
        refine ⟨_, ?_, Or.inr ⟨evs1, b, r, tl, hb, rfl, hpre, htl⟩⟩
        rw [ho, hs2, List.append_assoc]
      simp only [poll_cycle, write_acq_cmd_ok bus s hacq, hbw]
      by_cases hdw : (bus s2.txn).result = 0
      · by_cases hdr : (bus (s2.txn + 1)).result = 0
        · rw [read_distance_ok bus s2 hdw hdr]
          simp only
          by_cases hvw : (bus (s2.txn + 2)).result = 0
          · by_cases hvr : (bus (s2.txn + 2 + 1)).result = 0
            · rw [read_delta_velocity_ok bus _ (by simpa [after_txn] using hvw)
                (by simpa [after_txn] using hvr)]
              refine finish _ ?_
              simp only [Outcome.state, State.after, printf, List.append_assoc,
                List.cons_append, List.nil_append, LIDAR_ADDR, LIDAR_DIST_REG]
              refine ⟨_, _, ?_, rfl⟩
              simp [NoDistSelect, LIDAR_ADDR, LIDAR_DELTA_VELOCITY_REG, REPORT_FMT]
            · rw [read_delta_velocity_read_fails bus _ (by simpa [after_txn] using hvw)
                (by simpa [after_txn] using hvr)]
              refine finish _ ?_
              simp only [Outcome.state, State.after, List.append_assoc,
                List.cons_append, List.nil_append, LIDAR_ADDR, LIDAR_DIST_REG]
              refine ⟨_, _, ?_, rfl⟩
              simp [NoDistSelect, LIDAR_ADDR, LIDAR_DELTA_VELOCITY_REG, diagnostic]
          · rw [read_delta_velocity_write_fails bus _ (by simpa [after_txn] using hvw)]
            refine finish _ ?_
            simp only [Outcome.state, State.after, List.append_assoc,
              List.cons_append, List.nil_append, LIDAR_ADDR, LIDAR_DIST_REG]
            refine ⟨_, _, ?_, rfl⟩
            simp [NoDistSelect, LIDAR_ADDR, LIDAR_DELTA_VELOCITY_REG, diagnostic]
        · rw [read_distance_read_fails bus s2 hdw hdr]
          refine finish _ ?_
          simp only [Outcome.state, State.after, List.append_assoc,
            List.cons_append, List.nil_append, LIDAR_ADDR, LIDAR_DIST_REG]
          refine ⟨_, _, ?_, rfl⟩
          simp [NoDistSelect, diagnostic]
      · rw [read_distance_write_fails bus s2 hdw]
        refine finish _ ?_
        simp only [Outcome.state, State.after, List.append_assoc,
          List.cons_append, List.nil_append, LIDAR_ADDR, LIDAR_DIST_REG]
        refine ⟨_, _, ?_, rfl⟩
        simp [NoDistSelect, diagnostic]
  · refine ⟨Event.write LIDAR_ADDR [LIDAR_ACQ_CMD_REG, LIDAR_ACQ_CMD] (bus s.txn).result ::
      diagnostic "lidar: write_acq_cmd: failed to write acquire command", ?_, Or.inl ?_⟩
    · simp [poll_cycle, write_acq_cmd_fails bus s hacq, Outcome.state, State.after]
    · simp [NoDistSelect, diagnostic, LIDAR_ADDR, LIDAR_ACQ_CMD_REG, LIDAR_ACQ_CMD]

/-- The first event of a busy-wait loop with fuel left is the status select. -/
theorem busy_wait_first (bus : Nat → Reply) (fuel : Nat) (s : State) :
    ∃ rest, (busy_wait bus (fuel + 1) s).state.trace =
      s.trace ++ Event.write (0x62 <<< 1) [0x01] (bus s.txn).result :: rest := by
  by_cases hw : (bus s.txn).result = 0
  · by_cases hr : (bus (s.txn + 1)).result = 0
    · rw [busy_wait, read_status_ok bus s hw hr]
      simp only [busy_flag_eq, wait_after]
      by_cases hb : (bus (s.txn + 1)).data 0 % 256 % 2 = 0
      · simp only [hb, ne_eq, not_true_eq_false, if_false]
        refine ⟨[Event.read LIDAR_ADDR 1 0 [(bus (s.txn + 1)).data 0 % 256], Event.wait], ?_⟩
        simp [Outcome.state, State.after, LIDAR_ADDR, LIDAR_STATUS_REG, hw]
      · simp only [hb, ne_eq, not_false_eq_true, if_true]
        obtain ⟨evs, htr, -, -⟩ := busy_wait_shape bus fuel (s.after 2
          ([Event.write LIDAR_ADDR [LIDAR_STATUS_REG] 0,
            Event.read LIDAR_ADDR 1 0 [(bus (s.txn + 1)).data 0 % 256]] ++ [Event.wait]))
        refine ⟨[Event.read LIDAR_ADDR 1 0 [(bus (s.txn + 1)).data 0 % 256], Event.wait]
          ++ evs, ?_⟩
        rw [htr]
        simp [State.after, LIDAR_ADDR, LIDAR_STATUS_REG, hw]
    · rw [busy_wait, read_status_read_fails bus s hw hr]
      refine ⟨Event.read LIDAR_ADDR 1 (bus (s.txn + 1)).result (recv (bus (s.txn + 1)) 1) ::
        diagnostic "lidar: read_status: failed to read status register", ?_⟩
      simp [Outcome.state, State.after, LIDAR_ADDR, LIDAR_STATUS_REG, hw]
  · rw [busy_wait, read_status_write_fails bus s hw]
    refine ⟨diagnostic "lidar: read_status: failed to select status register for read", ?_⟩
    simp [Outcome.state, State.after, LIDAR_ADDR, LIDAR_STATUS_REG]

/-- Each of the two read functions that follow the busy-wait only adds events. -/
theorem read_distance_extends (bus : Nat → Reply) (s : State) :
    ∃ rest, (lidar_read_distance bus s).state.trace = s.trace ++ rest := by
  by_cases hw : (bus s.txn).result = 0
  · by_cases hr : (bus (s.txn + 1)).result = 0
    · rw [read_distance_ok bus s hw hr]; exact ⟨_, rfl⟩
    · rw [read_distance_read_fails bus s hw hr]; exact ⟨_, rfl⟩
  · rw [read_distance_write_fails bus s hw]; exact ⟨_, rfl⟩

theorem read_delta_velocity_extends (bus : Nat → Reply) (s : State) :
    ∃ rest, (lidar_read_delta_velocity bus s).state.trace = s.trace ++ rest := by
  by_cases hw : (bus s.txn).result = 0
  · by_cases hr : (bus (s.txn + 1)).result = 0
    · rw [read_delta_velocity_ok bus s hw hr]; exact ⟨_, rfl⟩
    · rw [read_delta_velocity_read_fails bus s hw hr]; exact ⟨_, rfl⟩
  · rw [read_delta_velocity_write_fails bus s hw]; exact ⟨_, rfl⟩

/-- After a successful acquire command the events of the cycle begin with those of the
busy-wait loop. -/
theorem poll_cycle_extends (bus : Nat → Reply) (fuel : Nat) (vel : Int) (s : State)
    (hacq : (bus s.txn).result = 0) :
    ∃ rest, (poll_cycle bus fuel vel s).state.trace =
      (busy_wait bus fuel
        (s.after 1 [Event.write LIDAR_ADDR [LIDAR_ACQ_CMD_REG, LIDAR_ACQ_CMD] 0])).state.trace
        ++ rest := by
  simp only [poll_cycle, write_acq_cmd_ok bus s hacq]
  cases hbw : busy_wait bus fuel
      (s.after 1 [Event.write LIDAR_ADDR [LIDAR_ACQ_CMD_REG, LIDAR_ACQ_CMD] 0]) with
  | exited s2 => exact ⟨[], by simp [Outcome.state]⟩
  | running s2 => exact ⟨[], by simp [Outcome.state]⟩
  | ok st s2 =>
    simp only
    obtain ⟨r1, h1⟩ := read_distance_extends bus s2
    cases hd : lidar_read_distance bus s2 with
    | exited s3 => rw [hd] at h1; exact ⟨r1, by simpa [Outcome.state] using h1⟩
    | running s3 => rw [hd] at h1; exact ⟨r1, by simpa [Outcome.state] using h1⟩
    | ok raw s3 =>
      rw [hd] at h1
      simp only
      obtain ⟨r2, h2⟩ := read_delta_velocity_extends bus s3
      have h1 : s3.trace = s2.trace ++ r1 := by simpa [Outcome.state] using h1
      cases hv : lidar_read_delta_velocity bus s3 with
      | exited s4 =>
        rw [hv] at h2
        exact ⟨r1 ++ r2, by simp only [Outcome.state] at h2 ⊢; rw [h2, h1, List.append_assoc]⟩
      | running s4 =>
        rw [hv] at h2
        exact ⟨r1 ++ r2, by simp only [Outcome.state] at h2 ⊢; rw [h2, h1, List.append_assoc]⟩
      | ok delta s4 =>
        rw [hv] at h2
        refine ⟨r1 ++ r2 ++ [Event.printf REPORT_FMT
          [((if raw ≥ to_uint16 9999 then 9999 else raw : Nat) : Int),
           to_int8 (vel + delta)]], ?_⟩
        simp only [Outcome.state, printf] at h2 ⊢
        rw [h2, h1]
        simp

/-- C7: (a) the busy flag decoded from a status byte `b` is `b & 0x01`, nonzero exactly
when bit 0 of `b` is set; (b) when the status byte just read has bit 0 set, the busy-wait
loop runs its body again, and its next bus transaction is the status select, not the
distance select; (c) whatever the bus answers during a poll cycle, a distance select
appears among its events only right after a successful status poll of the same cycle
whose byte has bit 0 clear; (d) after a successful acquire command the next bus
transaction is always a status select, so every cycle polls the status at least once. -/
theorem distance_read_follows_not_busy (bus : Nat → Reply) (fuel : Nat) (vel : Int)
    (s : State) :
    ((bus s.txn).result = 0 → (bus (s.txn + 1)).result = 0 →
      ∃ st s1, lidar_read_status bus s = .ok st s1
        ∧ st.busy = (bus (s.txn + 1)).data 0 % 256 &&& 0x01
        ∧ (st.busy ≠ 0 ↔ ((bus (s.txn + 1)).data 0 % 256).testBit 0 = true))
    ∧ ((bus s.txn).result = 0 → (bus (s.txn + 1)).result = 0 →
        ((bus (s.txn + 1)).data 0 % 256).testBit 0 = true →
        busy_wait bus (fuel + 1) s = busy_wait bus fuel (s.after 2
            [Event.write (0x62 <<< 1) [0x01] 0,
             Event.read (0x62 <<< 1) 1 0 [(bus (s.txn + 1)).data 0 % 256], Event.wait])
          ∧ ∃ rest, (busy_wait bus (fuel + 2) s).state.trace = s.trace ++
              [Event.write (0x62 <<< 1) [0x01] 0,
               Event.read (0x62 <<< 1) 1 0 [(bus (s.txn + 1)).data 0 % 256], Event.wait,
               Event.write (0x62 <<< 1) [0x01] (bus (s.txn + 2)).result] ++ rest)
    ∧ (∀ (A B : List Event) (r : Int),
        (poll_cycle bus fuel vel s).state.trace =
          s.trace ++ A ++ Event.write (0x62 <<< 1) [0x8f] r :: B →
        ∃ A1 b, b.testBit 0 = false ∧ A = Event.write (0x62 <<< 1) [0x00, 0x04] 0 :: A1 ++
          [Event.write (0x62 <<< 1) [0x01] 0, Event.read (0x62 <<< 1) 1 0 [b], Event.wait])
    ∧ ((bus s.txn).result = 0 →
        ∃ rest, (poll_cycle bus (fuel + 1) vel s).state.trace = s.trace ++
          [Event.write (0x62 <<< 1) [0x00, 0x04] 0,
           Event.write (0x62 <<< 1) [0x01] (bus (s.txn + 1)).result] ++ rest) := by
  have hbit : ∀ b : Nat, b &&& 1 = b % 2 := Nat.and_one_is_mod
  refine ⟨?_, ?_, ?_, ?_⟩
  · intro hw hr
    refine ⟨_, _, read_status_ok bus s hw hr, ?_, ?_⟩
    · simp only [busy_flag_eq, hbit]
    · simp only [busy_flag_eq, Nat.testBit_zero, decide_eq_true_eq]
      omega
  · intro hw hr hb
    have hb1 : (bus (s.txn + 1)).data 0 % 256 % 2 = 1 := by
      simpa [Nat.testBit_zero] using hb
    have hstep : ∀ f, busy_wait bus (f + 1) s = busy_wait bus f (s.after 2
        [Event.write (0x62 <<< 1) [0x01] 0,
         Event.read (0x62 <<< 1) 1 0 [(bus (s.txn + 1)).data 0 % 256], Event.wait]) := by
      intro f
      rw [busy_wait, read_status_ok bus s hw hr]
      simp only [busy_flag_eq, wait_after, hb1]
      rfl
    refine ⟨hstep fuel, ?_⟩
    obtain ⟨rest, hrest⟩ := busy_wait_first bus fuel (s.after 2
      [Event.write (0x62 <<< 1) [0x01] 0,
       Event.read (0x62 <<< 1) 1 0 [(bus (s.txn + 1)).data 0 % 256], Event.wait])
    refine ⟨rest, ?_⟩
    rw [hstep (fuel + 1), hrest]
    simp [State.after]
  · intro A B r htr
    obtain ⟨X, hX, hshape⟩ := poll_cycle_shape bus fuel vel s
    rw [hX, List.append_assoc] at htr
    have hsplit : X = A ++ Event.write (0x62 <<< 1) [0x8f] r :: B :=
      List.append_cancel_left htr
    rcases hshape with hno | ⟨evs, b, r2, tl, hb, hXeq, hpre, htl⟩
    · exact absurd rfl (hno _ (by rw [hsplit]; simp) r)
    · refine ⟨evs, b, by simp [Nat.testBit_zero, hb], ?_⟩
      rw [hXeq] at hsplit
      exact split_unique (fun e => ∃ r : Int, e = Event.write (0x62 <<< 1) [0x8f] r)
        _ _ ⟨r, rfl⟩ A _ B tl
        (fun e he ⟨r3, h3⟩ => hpre e he r3 h3) (fun e he ⟨r3, h3⟩ => htl e he r3 h3)
        hsplit.symm
  · intro hacq
    obtain ⟨rest, hrest⟩ := poll_cycle_extends bus (fuel + 1) vel s hacq
    obtain ⟨rest2, hrest2⟩ := busy_wait_first bus fuel
      (s.after 1 [Event.write LIDAR_ADDR [LIDAR_ACQ_CMD_REG, LIDAR_ACQ_CMD] 0])
    refine ⟨rest2 ++ rest, ?_⟩
    rw [hrest, hrest2]
    simp [State.after, LIDAR_ADDR, LIDAR_ACQ_CMD_REG, LIDAR_ACQ_CMD]

/-- C7 at a cycle whose status bytes are 0x01 then 0x00: after the byte 0x01 the loop
selects the status register again, and the distance select comes right after the poll
that read 0x00. -/
theorem distance_read_follows_not_busy_witness :
    (∃ rest, (busy_wait (bus_of [(0, []), (0, []), (0, [0x01]), (0, []), (0, [0x00]),
        (0, []), (0, [0x01, 0x02]), (0, []), (0, [0x05])]) 2 { txn := 1, trace := [] }
        ).state.trace =
      [] ++ [Event.write (0x62 <<< 1) [0x01] 0, Event.read (0x62 <<< 1) 1 0 [0x01],
        Event.wait, Event.write (0x62 <<< 1) [0x01] 0] ++ rest)
    ∧ ∃ A1 b, b.testBit 0 = false ∧
      [Event.write 196 [0x00, 0x04] 0,
       Event.write 196 [0x01] 0, Event.read 196 1 0 [0x01], Event.wait,
       Event.write 196 [0x01] 0, Event.read 196 1 0 [0x00], Event.wait] =
      Event.write (0x62 <<< 1) [0x00, 0x04] 0 :: A1 ++
        [Event.write (0x62 <<< 1) [0x01] 0, Event.read (0x62 <<< 1) 1 0 [b], Event.wait] :=
  ⟨((distance_read_follows_not_busy (bus_of [(0, []), (0, []), (0, [0x01]), (0, []),
      (0, [0x00]), (0, []), (0, [0x01, 0x02]), (0, []), (0, [0x05])]) 0 0
      { txn := 1, trace := [] }).2.1 (by decide) (by decide) (by decide)).2,
   (distance_read_follows_not_busy (bus_of [(0, []), (0, []), (0, [0x01]), (0, []),
      (0, [0x00]), (0, []), (0, [0x01, 0x02]), (0, []), (0, [0x05])]) 2 0
      { txn := 0, trace := [] }).2.2.1
      [Event.write 196 [0x00, 0x04] 0,
       Event.write 196 [0x01] 0, Event.read 196 1 0 [0x01], Event.wait,
       Event.write 196 [0x01] 0, Event.read 196 1 0 [0x00], Event.wait]
      [Event.read 196 2 0 [0x01, 0x02],
       Event.write 196 [0x09] 0, Event.read 196 1 0 [0x05],
       Event.printf "lidar: distance=%d cm, velocity=%d cm/s\r\n" [258, 5]]
      0 (by decide)⟩

/-! ## Fatal errors -/

theorem after_zero (s : State) : s.after 0 [] = s := by
  cases s
  simp [State.after]

/-- While the status bytes have bit 0 set the busy-wait loop keeps polling. -/
theorem busy_wait_busy_polls (bus : Nat → Reply) (j : Nat) :
    ∀ (fuel : Nat) (s : State),
      (∀ i, i < 2 * j → (bus (s.txn + i)).result = 0) →
      (∀ i, i < j → (bus (s.txn + 2 * i + 1)).data 0 % 256 % 2 = 1) →
      busy_wait bus (fuel + j) s =
        busy_wait bus fuel (s.after (2 * j) (status_polls bus s.txn j)) := by
  induction j with
  | zero =>
    intro fuel s _ _
    simp [status_polls, after_zero]
  | succ j ih =>
    intro fuel s hres hbusy
    have hw : (bus s.txn).result = 0 := by simpa using hres 0 (by omega)
    have hr : (bus (s.txn + 1)).result = 0 := hres 1 (by omega)
    have hb : (bus (s.txn + 1)).data 0 % 256 % 2 = 1 := by simpa using hbusy 0 (by omega)
    rw [show fuel + (j + 1) = (fuel + j) + 1 by omega, busy_wait,
      read_status_ok bus s hw hr]
    simp only [busy_flag_eq, wait_after, hb, ne_eq, one_ne_zero, not_false_eq_true, if_true]
    rw [ih fuel _
      (by
        intro i hi
        have := hres (2 + i) (by omega)
        simpa [after_txn, Nat.add_assoc] using this)
      (by
        intro i hi
        have := hbusy (i + 1) (by omega)
        rw [after_txn, show s.txn + 2 + 2 * i + 1 = s.txn + 2 * (i + 1) + 1 by omega]
        exact this)]
    congr 1
    simp only [State.after, status_polls, LIDAR_ADDR, LIDAR_STATUS_REG, State.mk.injEq]
    exact ⟨by omega, by simp⟩

/-- A failing acquire command ends the cycle. -/
theorem poll_cycle_acq_fails (bus : Nat → Reply) (fuel : Nat) (vel : Int) (s : State)
    (hw : (bus s.txn).result ≠ 0) :
    poll_cycle bus fuel vel s = .exited (s.after 1
      [Event.write (0x62 <<< 1) [0x00, 0x04] (bus s.txn).result,
       Event.printf "lidar: write_acq_cmd: failed to write acquire command" [],
       Event.printf "\r\n" [], Event.exit 1]) := by
  rw [poll_cycle, write_acq_cmd_fails bus s hw]
  rfl

/-- A failing status select in the poll after `j` busy polls ends the cycle. -/
theorem poll_cycle_status_select_fails (bus : Nat → Reply) (fuel : Nat) (vel : Int)
    (s : State) (j : Nat) (hb : BusyPolls bus s.txn j) (hf : j < fuel)
    (hw : (bus (s.txn + 2 * j + 1)).result ≠ 0) :
    poll_cycle bus fuel vel s = .exited (s.after (2 * j + 2)
      (Event.write (0x62 <<< 1) [0x00, 0x04] 0 :: status_polls bus (s.txn + 1) j ++
        [Event.write (0x62 <<< 1) [0x01] (bus (s.txn + 2 * j + 1)).result,
         Event.printf "lidar: read_status: failed to select status register for read" [],
         Event.printf "\r\n" [], Event.exit 1])) := by
  obtain ⟨hres, hbusy⟩ := hb
  obtain ⟨f, rfl⟩ : ∃ f, fuel = f + 1 + j := ⟨fuel - 1 - j, by omega⟩
  have hacq : (bus s.txn).result = 0 := by simpa using hres 0 (by omega)
  have hbw := busy_wait_busy_polls bus j (f + 1)
    (s.after 1 [Event.write LIDAR_ADDR [LIDAR_ACQ_CMD_REG, LIDAR_ACQ_CMD] 0])
    (by
      intro i hi
      have := hres (1 + i) (by omega)
      simpa [after_txn, Nat.add_assoc] using this)
    (by
      intro i hi
      have := hbusy i hi
      rw [after_txn, show s.txn + 1 + 2 * i + 1 = s.txn + 2 * i + 2 by omega]
      exact this)
  simp only [poll_cycle, write_acq_cmd_ok bus s hacq, hbw, after_after, after_txn]
  rw [busy_wait, read_status_write_fails bus _
    (by rw [after_txn, show s.txn + (1 + 2 * j) = s.txn + 2 * j + 1 by omega]; exact hw)]
  simp only [after_after, after_txn, State.after, diagnostic, LIDAR_ADDR, LIDAR_ACQ_CMD_REG,
    LIDAR_ACQ_CMD, LIDAR_STATUS_REG, List.cons_append, List.nil_append, List.append_assoc,
    show s.txn + (1 + 2 * j) = s.txn + 2 * j + 1 from by omega]
  rw [show s.txn + 2 * j + 1 + 1 = s.txn + (2 * j + 2) by omega]

/-- A failing status read in the poll after `j` busy polls ends the cycle. -/
theorem poll_cycle_status_read_fails (bus : Nat → Reply) (fuel : Nat) (vel : Int)
    (s : State) (j : Nat) (hb : BusyPolls bus s.txn j) (hf : j < fuel)
    (hw : (bus (s.txn + 2 * j + 1)).result = 0)
    (hr : (bus (s.txn + 2 * j + 2)).result ≠ 0) :
    poll_cycle bus fuel vel s = .exited (s.after (2 * j + 3)
      (Event.write (0x62 <<< 1) [0x00, 0x04] 0 :: status_polls bus (s.txn + 1) j ++
        [Event.write (0x62 <<< 1) [0x01] 0,
         Event.read (0x62 <<< 1) 1 (bus (s.txn + 2 * j + 2)).result
           (recv (bus (s.txn + 2 * j + 2)) 1),
         Event.printf "lidar: read_status: failed to read status register" [],
         Event.printf "\r\n" [], Event.exit 1])) := by
  obtain ⟨hres, hbusy⟩ := hb
  obtain ⟨f, rfl⟩ : ∃ f, fuel = f + 1 + j := ⟨fuel - 1 - j, by omega⟩
  have hacq : (bus s.txn).result = 0 := by simpa using hres 0 (by omega)
  have hbw := busy_wait_busy_polls bus j (f + 1)
    (s.after 1 [Event.write LIDAR_ADDR [LIDAR_ACQ_CMD_REG, LIDAR_ACQ_CMD] 0])
    (by
      intro i hi
      have := hres (1 + i) (by omega)
      simpa [after_txn, Nat.add_assoc] using this)
    (by
      intro i hi
      have := hbusy i hi
      rw [after_txn, show s.txn + 1 + 2 * i + 1 = s.txn + 2 * i + 2 by omega]
      exact this)
  simp only [poll_cycle, write_acq_cmd_ok bus s hacq, hbw, after_after, after_txn]
  rw [busy_wait, read_status_read_fails bus _
    (by rw [after_txn, show s.txn + (1 + 2 * j) = s.txn + 2 * j + 1 by omega]; exact hw)
    (by rw [after_txn, show s.txn + (1 + 2 * j) + 1 = s.txn + 2 * j + 2 by omega]; exact hr)]
  simp only [after_after, after_txn, State.after, diagnostic, LIDAR_ADDR, LIDAR_ACQ_CMD_REG,
    LIDAR_ACQ_CMD, LIDAR_STATUS_REG, List.cons_append, List.nil_append, List.append_assoc,
    show s.txn + (1 + 2 * j) + 1 = s.txn + 2 * j + 2 from by omega]
  congr 2
  omega

/-- The acquire command and the busy-wait loop of a cycle return when they succeed. -/
theorem busy_wait_of_waitOk (bus : Nat → Reply) (fuel : Nat) (s : State) (k : Nat)
    (h : WaitOk bus s.txn k) (hf : k ≤ fuel) :
    ∃ st, busy_wait bus fuel
        (s.after 1 [Event.write LIDAR_ADDR [LIDAR_ACQ_CMD_REG, LIDAR_ACQ_CMD] 0]) =
      .ok st (s.after (2 * k + 1)
        (Event.write (0x62 <<< 1) [0x00, 0x04] 0 :: status_polls bus (s.txn + 1) k)) := by
  obtain ⟨hk, hres, hbusy, hlast⟩ := h
  obtain ⟨st, hbw, -⟩ := busy_wait_ends bus k fuel
    (s.after 1 [Event.write LIDAR_ADDR [LIDAR_ACQ_CMD_REG, LIDAR_ACQ_CMD] 0]) hk hf
    (by
      intro j hj
      have := hres (1 + j) (by omega)
      simpa [after_txn, Nat.add_assoc] using this)
    (by
      intro j hj
      have := hbusy j (by omega)
      rw [after_txn, show s.txn + 1 + 2 * j + 1 = s.txn + 2 * j + 2 by omega]
      exact this)
    (by
      rw [after_txn, show s.txn + 1 + 2 * k - 1 = s.txn + 2 * k by omega]
      exact hlast)
  refine ⟨st, ?_⟩
  rw [hbw]
  congr 1
  simp only [after_after, after_txn, State.after, LIDAR_ADDR, LIDAR_ACQ_CMD_REG, LIDAR_ACQ_CMD,
    State.mk.injEq]
  exact ⟨by omega, by simp⟩

/-- A failing distance select ends the cycle. -/
theorem poll_cycle_dist_select_fails (bus : Nat → Reply) (fuel : Nat) (vel : Int)
    (s : State) (k : Nat) (h : WaitOk bus s.txn k) (hf : k ≤ fuel)
    (hw : (bus (s.txn + 2 * k + 1)).result ≠ 0) :
    poll_cycle bus fuel vel s = .exited (s.after (2 * k + 2)
      (Event.write (0x62 <<< 1) [0x00, 0x04] 0 :: status_polls bus (s.txn + 1) k ++
        [Event.write (0x62 <<< 1) [0x8f] (bus (s.txn + 2 * k + 1)).result,
         Event.printf "lidar: read_distance: failed to select distance registers for read" [],
         Event.printf "\r\n" [], Event.exit 1])) := by
  obtain ⟨st, hbw⟩ := busy_wait_of_waitOk bus fuel s k h hf
  have hacq : (bus s.txn).result = 0 := by simpa using h.2.1 0 (by omega)
  have e1 : s.txn + (2 * k + 1) = s.txn + 2 * k + 1 := by omega
  simp only [poll_cycle, write_acq_cmd_ok bus s hacq, hbw]
  rw [read_distance_write_fails bus _ (by rw [after_txn, e1]; exact hw)]
  simp only [after_after, after_txn, e1, State.after, diagnostic, LIDAR_ADDR, LIDAR_DIST_REG,
    List.cons_append, List.nil_append, List.append_assoc]
  rw [show s.txn + 2 * k + 1 + 1 = s.txn + (2 * k + 2) by omega]

/-- A failing distance read ends the cycle. -/
theorem poll_cycle_dist_read_fails (bus : Nat → Reply) (fuel : Nat) (vel : Int)
    (s : State) (k : Nat) (h : WaitOk bus s.txn k) (hf : k ≤ fuel)
    (hw : (bus (s.txn + 2 * k + 1)).result = 0)
    (hr : (bus (s.txn + 2 * k + 2)).result ≠ 0) :
    poll_cycle bus fuel vel s = .exited (s.after (2 * k + 3)
      (Event.write (0x62 <<< 1) [0x00, 0x04] 0 :: status_polls bus (s.txn + 1) k ++
        [Event.write (0x62 <<< 1) [0x8f] 0,
         Event.read (0x62 <<< 1) 2 (bus (s.txn + 2 * k + 2)).result
           (recv (bus (s.txn + 2 * k + 2)) 2),
         Event.printf "lidar: read_distance: failed to read distance registers" [],
         Event.printf "\r\n" [], Event.exit 1])) := by
  obtain ⟨st, hbw⟩ := busy_wait_of_waitOk bus fuel s k h hf
  have hacq : (bus s.txn).result = 0 := by simpa using h.2.1 0 (by omega)
  have e1 : s.txn + (2 * k + 1) = s.txn + 2 * k + 1 := by omega
  have e2 : s.txn + 2 * k + 1 + 1 = s.txn + 2 * k + 2 := by omega
  simp only [poll_cycle, write_acq_cmd_ok bus s hacq, hbw]
  rw [read_distance_read_fails bus _ (by rw [after_txn, e1]; exact hw)
    (by rw [after_txn, e1, e2]; exact hr)]
  simp only [after_after, after_txn, e1, e2, State.after, diagnostic, LIDAR_ADDR,
    LIDAR_DIST_REG, List.cons_append, List.nil_append, List.append_assoc]
  rw [show s.txn + 2 * k + 1 + 2 = s.txn + (2 * k + 3) by omega]

/-- A failing delta-velocity select ends the cycle. -/
theorem poll_cycle_delta_select_fails (bus : Nat → Reply) (fuel : Nat) (vel : Int)
    (s : State) (k : Nat) (h : WaitOk bus s.txn k) (hf : k ≤ fuel)
    (hdw : (bus (s.txn + 2 * k + 1)).result = 0)
    (hdr : (bus (s.txn + 2 * k + 2)).result = 0)
    (hw : (bus (s.txn + 2 * k + 3)).result ≠ 0) :
    poll_cycle bus fuel vel s = .exited (s.after (2 * k + 4)
      (Event.write (0x62 <<< 1) [0x00, 0x04] 0 :: status_polls bus (s.txn + 1) k ++
        [Event.write (0x62 <<< 1) [0x8f] 0,
         Event.read (0x62 <<< 1) 2 0 [dist_hi bus s.txn k, dist_lo bus s.txn k],
         Event.write (0x62 <<< 1) [0x09] (bus (s.txn + 2 * k + 3)).result,
         Event.printf
           "lidar: read_delta_velocity: failed to select delta velocity register for read" [],
         Event.printf "\r\n" [], Event.exit 1])) := by
  obtain ⟨st, hbw⟩ := busy_wait_of_waitOk bus fuel s k h hf
  have hacq : (bus s.txn).result = 0 := by simpa using h.2.1 0 (by omega)
  have e1 : s.txn + (2 * k + 1) = s.txn + 2 * k + 1 := by omega
  have e2 : s.txn + 2 * k + 1 + 1 = s.txn + 2 * k + 2 := by omega
  have e3 : s.txn + (2 * k + 1 + 2) = s.txn + 2 * k + 3 := by omega
  simp only [poll_cycle, write_acq_cmd_ok bus s hacq, hbw]
  rw [read_distance_ok bus _ (by rw [after_txn, e1]; exact hdw)
    (by rw [after_txn, e1, e2]; exact hdr)]
  simp only [after_after, after_txn, e1, e2]
  rw [read_delta_velocity_write_fails bus _ (by rw [after_txn, e3]; exact hw)]
  simp only [after_after, after_txn, e3, State.after, diagnostic, LIDAR_ADDR,
    LIDAR_DIST_REG, LIDAR_DELTA_VELOCITY_REG, dist_hi, dist_lo,
    List.cons_append, List.nil_append, List.append_assoc]
  rw [show s.txn + 2 * k + 3 + 1 = s.txn + (2 * k + 4) by omega]

/-- A failing delta-velocity read ends the cycle. -/
theorem poll_cycle_delta_read_fails (bus : Nat → Reply) (fuel : Nat) (vel : Int)
    (s : State) (k : Nat) (h : WaitOk bus s.txn k) (hf : k ≤ fuel)
    (hdw : (bus (s.txn + 2 * k + 1)).result = 0)
    (hdr : (bus (s.txn + 2 * k + 2)).result = 0)
    (hw : (bus (s.txn + 2 * k + 3)).result = 0)
    (hr : (bus (s.txn + 2 * k + 4)).result ≠ 0) :
    poll_cycle bus fuel vel s = .exited (s.after (2 * k + 5)
      (Event.write (0x62 <<< 1) [0x00, 0x04] 0 :: status_polls bus (s.txn + 1) k ++
        [Event.write (0x62 <<< 1) [0x8f] 0,
         Event.read (0x62 <<< 1) 2 0 [dist_hi bus s.txn k, dist_lo bus s.txn k],
         Event.write (0x62 <<< 1) [0x09] 0,
         Event.read (0x62 <<< 1) 1 (bus (s.txn + 2 * k + 4)).result
           (recv (bus (s.txn + 2 * k + 4)) 1),
         Event.printf "lidar: read_delta_velocity: failed to read delta velocity register" [],
         Event.printf "\r\n" [], Event.exit 1])) := by
  obtain ⟨st, hbw⟩ := busy_wait_of_waitOk bus fuel s k h hf
  have hacq : (bus s.txn).result = 0 := by simpa using h.2.1 0 (by omega)
  have e1 : s.txn + (2 * k + 1) = s.txn + 2 * k + 1 := by omega
  have e2 : s.txn + 2 * k + 1 + 1 = s.txn + 2 * k + 2 := by omega
  have e3 : s.txn + (2 * k + 1 + 2) = s.txn + 2 * k + 3 := by omega
  have e4 : s.txn + 2 * k + 3 + 1 = s.txn + 2 * k + 4 := by omega
  simp only [poll_cycle, write_acq_cmd_ok bus s hacq, hbw]
  rw [read_distance_ok bus _ (by rw [after_txn, e1]; exact hdw)
    (by rw [after_txn, e1, e2]; exact hdr)]
  simp only [after_after, after_txn, e1, e2]
  rw [read_delta_velocity_read_fails bus _ (by rw [after_txn, e3]; exact hw)
    (by rw [after_txn, e3, e4]; exact hr)]
  simp only [after_after, after_txn, e3, e4, State.after, diagnostic, LIDAR_ADDR,
    LIDAR_DIST_REG, LIDAR_DELTA_VELOCITY_REG, dist_hi, dist_lo,
    List.cons_append, List.nil_append, List.append_assoc]
  rw [show s.txn + 2 * k + 3 + 2 = s.txn + (2 * k + 5) by omega]

/-- An exit in a poll cycle is the end of the loop, whatever number of iterations the
loop was given. -/
theorem main_loop_exits (bus : Nat → Reply) (fuel cycles : Nat) (vel : Int) (s s1 : State)
    (h : poll_cycle bus fuel vel s = .exited s1) :
    main_loop bus fuel (cycles + 1) vel s = .exited s1 := by
  rw [main_loop, h]

/-- An exit in the cycle that follows a run of good cycles is the end of the loop. -/
theorem main_loop_exits_after_run (bus : Nat → Reply) (fuel cycles : Nat) (ks : List Nat) :
    ∀ (vel : Int) (s s1 : State), RunOk bus s.txn ks → (∀ k, k ∈ ks → k ≤ fuel) →
      poll_cycle bus fuel (accumulate vel (run_deltas bus s.txn ks))
        (s.after (run_txns ks) (run_events bus s.txn ks vel)) = .exited s1 →
      main_loop bus fuel (ks.length + (cycles + 1)) vel s = .exited s1 := by
  induction ks with
  | nil =>
    intro vel s s1 _ _ h
    simp only [run_deltas, run_txns, run_events, accumulate, List.foldl_nil, after_zero] at h
    simpa using main_loop_exits bus fuel cycles vel s s1 h
  | cons k ks ih =>
    intro vel s s1 hrun hfuel h
    obtain ⟨hk, hrest⟩ := hrun
    have hf : k ≤ fuel := hfuel k (List.mem_cons_self _ _)
    rw [List.length_cons, show ks.length + 1 + (cycles + 1) = (ks.length + (cycles + 1)) + 1
      by omega, main_loop, poll_cycle_ok bus fuel vel s k hk hf]
    simp only
    refine ih _ _ s1 (by simpa [after_txn] using hrest)
      (fun j hj => hfuel j (List.mem_cons_of_mem _ hj)) ?_
    simpa only [after_after, after_txn, run_deltas, run_txns, run_events, accumulate_cons]
      using h

/-- When the busy-wait loop has exited, the last events are a diagnostic line and
`exit(1)`. -/
theorem busy_wait_exit_shape (bus : Nat → Reply) (fuel : Nat) :
    ∀ s s1 : State, busy_wait bus fuel s = .exited s1 →
      ∃ pre msg, s1.trace = s.trace ++ pre ++ diagnostic msg := by
  induction fuel with
  | zero => intro s s1 h; simp [busy_wait] at h
  | succ fuel ih =>
    intro s s1 h
    by_cases hw : (bus s.txn).result = 0
    · by_cases hr : (bus (s.txn + 1)).result = 0
      · rw [busy_wait, read_status_ok bus s hw hr] at h
        simp only [busy_flag_eq, wait_after] at h
        by_cases hb : (bus (s.txn + 1)).data 0 % 256 % 2 = 0
        · simp [hb] at h
        · simp only [hb, ne_eq, not_false_eq_true, if_true] at h
          obtain ⟨pre, msg, hpre⟩ := ih _ s1 h
          refine ⟨[Event.write LIDAR_ADDR [LIDAR_STATUS_REG] 0,
            Event.read LIDAR_ADDR 1 0 [(bus (s.txn + 1)).data 0 % 256], Event.wait] ++ pre,
            msg, ?_⟩
          rw [hpre]
          simp [State.after]
      · rw [busy_wait, read_status_read_fails bus s hw hr] at h
        simp only [Outcome.exited.injEq] at h
        refine ⟨[Event.write LIDAR_ADDR [LIDAR_STATUS_REG] 0,
          Event.read LIDAR_ADDR 1 (bus (s.txn + 1)).result (recv (bus (s.txn + 1)) 1)],
          "lidar: read_status: failed to read status register", ?_⟩
        rw [← h]
        simp [State.after]
    · rw [busy_wait, read_status_write_fails bus s hw] at h
      simp only [Outcome.exited.injEq] at h
      refine ⟨[Event.write LIDAR_ADDR [LIDAR_STATUS_REG] (bus s.txn).result],
        "lidar: read_status: failed to select status register for read", ?_⟩
      rw [← h]
      simp [State.after]

theorem read_distance_exit_shape (bus : Nat → Reply) (s s1 : State)
    (h : lidar_read_distance bus s = .exited s1) :
    ∃ pre msg, s1.trace = s.trace ++ pre ++ diagnostic msg := by
  by_cases hw : (bus s.txn).result = 0
  · by_cases hr : (bus (s.txn + 1)).result = 0
    · rw [read_distance_ok bus s hw hr] at h
      simp at h
    · rw [read_distance_read_fails bus s hw hr] at h
      simp only [Outcome.exited.injEq] at h
      refine ⟨[Event.write LIDAR_ADDR [LIDAR_DIST_REG] 0,
        Event.read LIDAR_ADDR 2 (bus (s.txn + 1)).result (recv (bus (s.txn + 1)) 2)],
        "lidar: read_distance: failed to read distance registers", ?_⟩
      rw [← h]
      simp [State.after]
  · rw [read_distance_write_fails bus s hw] at h
    simp only [Outcome.exited.injEq] at h
    refine ⟨[Event.write LIDAR_ADDR [LIDAR_DIST_REG] (bus s.txn).result],
      "lidar: read_distance: failed to select distance registers for read", ?_⟩
    rw [← h]
    simp [State.after]

theorem read_delta_velocity_exit_shape (bus : Nat → Reply) (s s1 : State)
    (h : lidar_read_delta_velocity bus s = .exited s1) :
    ∃ pre msg, s1.trace = s.trace ++ pre ++ diagnostic msg := by
  by_cases hw : (bus s.txn).result = 0
  · by_cases hr : (bus (s.txn + 1)).result = 0
    · rw [read_delta_velocity_ok bus s hw hr] at h
      simp at h
    · rw [read_delta_velocity_read_fails bus s hw hr] at h
      simp only [Outcome.exited.injEq] at h
      refine ⟨[Event.write LIDAR_ADDR [LIDAR_DELTA_VELOCITY_REG] 0,
        Event.read LIDAR_ADDR 1 (bus (s.txn + 1)).result (recv (bus (s.txn + 1)) 1)],
        "lidar: read_delta_velocity: failed to read delta velocity register", ?_⟩
      rw [← h]
      simp [State.after]
  · rw [read_delta_velocity_write_fails bus s hw] at h
    simp only [Outcome.exited.injEq] at h
    refine ⟨[Event.write LIDAR_ADDR [LIDAR_DELTA_VELOCITY_REG] (bus s.txn).result],
      "lidar: read_delta_velocity: failed to select delta velocity register for read", ?_⟩
    rw [← h]
    simp [State.after]

/-- When a poll cycle has exited, the last events are a diagnostic line and `exit(1)`. -/
theorem poll_cycle_exit_shape (bus : Nat → Reply) (fuel : Nat) (vel : Int) (s s1 : State)
    (h : poll_cycle bus fuel vel s = .exited s1) :
    ∃ pre msg, s1.trace = s.trace ++ pre ++ diagnostic msg := by
  by_cases hacq : (bus s.txn).result = 0
  · simp only [poll_cycle, write_acq_cmd_ok bus s hacq] at h
    obtain ⟨evs, htr, -, -⟩ := busy_wait_shape bus fuel
      (s.after 1 [Event.write LIDAR_ADDR [LIDAR_ACQ_CMD_REG, LIDAR_ACQ_CMD] 0])
    cases hbw : busy_wait bus fuel
        (s.after 1 [Event.write LIDAR_ADDR [LIDAR_ACQ_CMD_REG, LIDAR_ACQ_CMD] 0]) with
    | exited s2 =>
      rw [hbw] at h
      simp only [Outcome.exited.injEq] at h
      obtain ⟨pre, msg, hpre⟩ := busy_wait_exit_shape bus fuel _ s2 hbw
      refine ⟨Event.write LIDAR_ADDR [LIDAR_ACQ_CMD_REG, LIDAR_ACQ_CMD] 0 :: pre, msg, ?_⟩
      rw [← h, hpre]
      simp [State.after]
    | running s2 => rw [hbw] at h; simp at h
    | ok st s2 =>
      rw [hbw] at h htr
      simp only [Outcome.state] at htr
      simp only at h
      obtain ⟨r1, h1⟩ := read_distance_extends bus s2
      cases hd : lidar_read_distance bus s2 with
      | exited s3 =>
        rw [hd] at h
        simp only [Outcome.exited.injEq] at h
        obtain ⟨pre, msg, hpre⟩ := read_distance_exit_shape bus s2 s3 hd
        refine ⟨Event.write LIDAR_ADDR [LIDAR_ACQ_CMD_REG, LIDAR_ACQ_CMD] 0 :: evs ++ pre,
          msg, ?_⟩
        rw [← h, hpre, htr]
        simp [State.after]
      | running s3 => rw [hd] at h; simp at h
      | ok raw s3 =>
        rw [hd] at h h1
        simp only [Outcome.state] at h1
        simp only at h
        cases hv : lidar_read_delta_velocity bus s3 with
        | exited s4 =>
          rw [hv] at h
          simp only [Outcome.exited.injEq] at h
          obtain ⟨pre, msg, hpre⟩ := read_delta_velocity_exit_shape bus s3 s4 hv
          refine ⟨Event.write LIDAR_ADDR [LIDAR_ACQ_CMD_REG, LIDAR_ACQ_CMD] 0 :: evs ++ r1
            ++ pre, msg, ?_⟩
          rw [← h, hpre, h1, htr]
          simp [State.after]
        | running s4 => rw [hv] at h; simp at h
        | ok delta s4 => rw [hv] at h; simp at h
  · rw [poll_cycle, write_acq_cmd_fails bus s hacq] at h
    simp only [Outcome.exited.injEq] at h
    refine ⟨[Event.write LIDAR_ADDR [LIDAR_ACQ_CMD_REG, LIDAR_ACQ_CMD] (bus s.txn).result],
      "lidar: write_acq_cmd: failed to write acquire command", ?_⟩
    rw [← h]
    simp [State.after]

/-- When the program has exited, the last events are a diagnostic line and `exit(1)`. -/
theorem main_loop_exit_shape (bus : Nat → Reply) (fuel cycles : Nat) :
    ∀ (vel : Int) (s s1 : State), main_loop bus fuel cycles vel s = .exited s1 →
      ∃ pre msg, s1.trace = s.trace ++ pre ++ diagnostic msg := by
  induction cycles with
  | zero => intro vel s s1 h; simp [main_loop] at h
  | succ cycles ih =>
    intro vel s s1 h
    rw [main_loop] at h
    obtain ⟨X, hX, -⟩ := poll_cycle_shape bus fuel vel s
    cases hp : poll_cycle bus fuel vel s with
    | ok v s2 =>
      rw [hp] at h hX
      simp only [Outcome.state] at hX
      simp only at h
      obtain ⟨pre, msg, hpre⟩ := ih v s2 s1 h
      exact ⟨X ++ pre, msg, by rw [hpre, hX]; simp⟩
    | exited s2 =>
      rw [hp] at h
      simp only [Outcome.exited.injEq] at h
      rw [← h]
      exact poll_cycle_exit_shape bus fuel vel s s2 hp
    | running s2 => rw [hp] at h; simp at h

/-- C6: every driver operation exits (after its diagnostic line, with status 1) exactly
when one of its bus transactions returns a nonzero result; it stops at the first such
transaction, the trace holding nothing after `exit(1)` and no later bus transaction; and
it returns when all its transactions return 0.  At the level of the program: in any
poll cycle of `main`, reached after any run of good cycles, the first failing
transaction of `lidar_write_acq_cmd`, `lidar_read_status`, `lidar_read_distance` or
`lidar_read_delta_velocity` ends the whole loop, the trace being the events up to that
transaction, the diagnostic line of the operation and `exit(1)`, with no report line
for the cycle; and whenever the program has exited, its last events are one diagnostic
line and `exit(1)`.  A failing write in `lidar_write_acq_cmd` ends `main` with the
diagnostic line that contains "write_acq_cmd", with no report line and no further bus
traffic. -/
theorem bus_failure_is_fatal (bus : Nat → Reply) (s : State) (fuel cycles : Nat)
    (vel : Int) :
    ((bus s.txn).result ≠ 0 →
      main_loop bus fuel (cycles + 1) vel s = .exited (s.after 1
        [Event.write (0x62 <<< 1) [0x00, 0x04] (bus s.txn).result,
         Event.printf "lidar: write_acq_cmd: failed to write acquire command" [],
         Event.printf "\r\n" [], Event.exit 1]))
    ∧ (∃ pre post, "lidar: write_acq_cmd: failed to write acquire command" =
        pre ++ "write_acq_cmd" ++ post)
    -- the acquire command fails in the cycle after the good cycles `ks`
    ∧ (∀ (ks : List Nat), RunOk bus s.txn ks → (∀ k, k ∈ ks → k ≤ fuel) →
        (bus (s.txn + run_txns ks)).result ≠ 0 →
        main_loop bus fuel (ks.length + (cycles + 1)) vel s =
          .exited (s.after (run_txns ks + 1)
            (run_events bus s.txn ks vel ++
              [Event.write (0x62 <<< 1) [0x00, 0x04] (bus (s.txn + run_txns ks)).result,
               Event.printf "lidar: write_acq_cmd: failed to write acquire command" [],
               Event.printf "\r\n" [], Event.exit 1])))
    -- the status select fails after `j` busy polls of that cycle
    ∧ (∀ (ks : List Nat) (j : Nat), RunOk bus s.txn ks → (∀ k, k ∈ ks → k ≤ fuel) →
        BusyPolls bus (s.txn + run_txns ks) j →
        j < fuel →
        (bus (s.txn + run_txns ks + 2 * j + 1)).result ≠ 0 →
        main_loop bus fuel (ks.length + (cycles + 1)) vel s =
          .exited (s.after (run_txns ks + (2 * j + 2))
            (run_events bus s.txn ks vel ++
              (Event.write (0x62 <<< 1) [0x00, 0x04] 0 ::
               status_polls bus (s.txn + run_txns ks + 1) j ++
               [Event.write (0x62 <<< 1) [0x01] (bus (s.txn + run_txns ks + 2 * j + 1)).result,
                Event.printf "lidar: read_status: failed to select status register for read" [],
                Event.printf "\r\n" [], Event.exit 1]))))
    -- the status read fails after `j` busy polls of that cycle
    ∧ (∀ (ks : List Nat) (j : Nat), RunOk bus s.txn ks → (∀ k, k ∈ ks → k ≤ fuel) →
        BusyPolls bus (s.txn + run_txns ks) j →
        j < fuel →
        (bus (s.txn + run_txns ks + 2 * j + 1)).result = 0 →
        (bus (s.txn + run_txns ks + 2 * j + 2)).result ≠ 0 →
        main_loop bus fuel (ks.length + (cycles + 1)) vel s =
          .exited (s.after (run_txns ks + (2 * j + 3))
            (run_events bus s.txn ks vel ++
              (Event.write (0x62 <<< 1) [0x00, 0x04] 0 ::
               status_polls bus (s.txn + run_txns ks + 1) j ++
               [Event.write (0x62 <<< 1) [0x01] 0,
                Event.read (0x62 <<< 1) 1 (bus (s.txn + run_txns ks + 2 * j + 2)).result
                  (recv (bus (s.txn + run_txns ks + 2 * j + 2)) 1),
                Event.printf "lidar: read_status: failed to read status register" [],
                Event.printf "\r\n" [], Event.exit 1]))))
    -- the distance select fails after the `k` status polls of that cycle
    ∧ (∀ (ks : List Nat) (k : Nat), RunOk bus s.txn ks → (∀ k, k ∈ ks → k ≤ fuel) →
        WaitOk bus (s.txn + run_txns ks) k →
        k ≤ fuel →
        (bus (s.txn + run_txns ks + 2 * k + 1)).result ≠ 0 →
        main_loop bus fuel (ks.length + (cycles + 1)) vel s =
          .exited (s.after (run_txns ks + (2 * k + 2))
            (run_events bus s.txn ks vel ++
              (Event.write (0x62 <<< 1) [0x00, 0x04] 0 ::
               status_polls bus (s.txn + run_txns ks + 1) k ++
               [Event.write (0x62 <<< 1) [0x8f] (bus (s.txn + run_txns ks + 2 * k + 1)).result,
                Event.printf
                  "lidar: read_distance: failed to select distance registers for read" [],
                Event.printf "\r\n" [], Event.exit 1]))))
    -- the distance read fails
    ∧ (∀ (ks : List Nat) (k : Nat), RunOk bus s.txn ks → (∀ k, k ∈ ks → k ≤ fuel) →
        WaitOk bus (s.txn + run_txns ks) k →
        k ≤ fuel →
        (bus (s.txn + run_txns ks + 2 * k + 1)).result = 0 →
        (bus (s.txn + run_txns ks + 2 * k + 2)).result ≠ 0 →
        main_loop bus fuel (ks.length + (cycles + 1)) vel s =
          .exited (s.after (run_txns ks + (2 * k + 3))
            (run_events bus s.txn ks vel ++
              (Event.write (0x62 <<< 1) [0x00, 0x04] 0 ::
               status_polls bus (s.txn + run_txns ks + 1) k ++
               [Event.write (0x62 <<< 1) [0x8f] 0,
                Event.read (0x62 <<< 1) 2 (bus (s.txn + run_txns ks + 2 * k + 2)).result
                  (recv (bus (s.txn + run_txns ks + 2 * k + 2)) 2),
                Event.printf "lidar: read_distance: failed to read distance registers" [],
                Event.printf "\r\n" [], Event.exit 1]))))
    -- the delta-velocity select fails
    ∧ (∀ (ks : List Nat) (k : Nat), RunOk bus s.txn ks → (∀ k, k ∈ ks → k ≤ fuel) →
        WaitOk bus (s.txn + run_txns ks) k →
        k ≤ fuel →
        (bus (s.txn + run_txns ks + 2 * k + 1)).result = 0 →
        (bus (s.txn + run_txns ks + 2 * k + 2)).result = 0 →
        (bus (s.txn + run_txns ks + 2 * k + 3)).result ≠ 0 →
        main_loop bus fuel (ks.length + (cycles + 1)) vel s =
          .exited (s.after (run_txns ks + (2 * k + 4))
            (run_events bus s.txn ks vel ++
              (Event.write (0x62 <<< 1) [0x00, 0x04] 0 ::
               status_polls bus (s.txn + run_txns ks + 1) k ++
               [Event.write (0x62 <<< 1) [0x8f] 0,
                Event.read (0x62 <<< 1) 2 0
                  [dist_hi bus (s.txn + run_txns ks) k, dist_lo bus (s.txn + run_txns ks) k],
                Event.write (0x62 <<< 1) [0x09] (bus (s.txn + run_txns ks + 2 * k + 3)).result,
                Event.printf
                  "lidar: read_delta_velocity: failed to select delta velocity register for read"
                  [],
                Event.printf "\r\n" [], Event.exit 1]))))
    -- the delta-velocity read fails
    ∧ (∀ (ks : List Nat) (k : Nat), RunOk bus s.txn ks → (∀ k, k ∈ ks → k ≤ fuel) →
        WaitOk bus (s.txn + run_txns ks) k →
        k ≤ fuel →
        (bus (s.txn + run_txns ks + 2 * k + 1)).result = 0 →
        (bus (s.txn + run_txns ks + 2 * k + 2)).result = 0 →
        (bus (s.txn + run_txns ks + 2 * k + 3)).result = 0 →
        (bus (s.txn + run_txns ks + 2 * k + 4)).result ≠ 0 →
        main_loop bus fuel (ks.length + (cycles + 1)) vel s =
          .exited (s.after (run_txns ks + (2 * k + 5))
            (run_events bus s.txn ks vel ++
              (Event.write (0x62 <<< 1) [0x00, 0x04] 0 ::
               status_polls bus (s.txn + run_txns ks + 1) k ++
               [Event.write (0x62 <<< 1) [0x8f] 0,
                Event.read (0x62 <<< 1) 2 0
                  [dist_hi bus (s.txn + run_txns ks) k, dist_lo bus (s.txn + run_txns ks) k],
                Event.write (0x62 <<< 1) [0x09] 0,
                Event.read (0x62 <<< 1) 1 (bus (s.txn + run_txns ks + 2 * k + 4)).result
                  (recv (bus (s.txn + run_txns ks + 2 * k + 4)) 1),
                Event.printf
                  "lidar: read_delta_velocity: failed to read delta velocity register" [],
                Event.printf "\r\n" [], Event.exit 1]))))
    -- nothing follows an exit
    ∧ (∀ s1 : State, main_loop bus fuel cycles vel s = .exited s1 →
        ∃ pre msg, s1.trace = s.trace ++ pre ++
          [Event.printf msg [], Event.printf "\r\n" [], Event.exit 1])
    -- lidar_write_acq_cmd
    ∧ ((bus s.txn).result ≠ 0 →
      lidar_write_acq_cmd bus s = .exited (s.after 1
        [Event.write (0x62 <<< 1) [0x00, 0x04] (bus s.txn).result,
         Event.printf "lidar: write_acq_cmd: failed to write acquire command" [],
         Event.printf "\r\n" [], Event.exit 1]))
    ∧ ((bus s.txn).result = 0 →
      lidar_write_acq_cmd bus s = .ok () (s.after 1
        [Event.write (0x62 <<< 1) [0x00, 0x04] 0]))
    ∧ ((∃ s1, lidar_write_acq_cmd bus s = .exited s1) ↔ (bus s.txn).result ≠ 0)
    -- lidar_read_status
    ∧ ((bus s.txn).result ≠ 0 →
      lidar_read_status bus s = .exited (s.after 1
        [Event.write (0x62 <<< 1) [0x01] (bus s.txn).result,
         Event.printf "lidar: read_status: failed to select status register for read" [],
         Event.printf "\r\n" [], Event.exit 1]))
    ∧ ((bus s.txn).result = 0 → (bus (s.txn + 1)).result ≠ 0 →
      lidar_read_status bus s = .exited (s.after 2
        [Event.write (0x62 <<< 1) [0x01] 0,
         Event.read (0x62 <<< 1) 1 (bus (s.txn + 1)).result (recv (bus (s.txn + 1)) 1),
         Event.printf "lidar: read_status: failed to read status register" [],
         Event.printf "\r\n" [], Event.exit 1]))
    ∧ ((bus s.txn).result = 0 → (bus (s.txn + 1)).result = 0 →
      ∃ st, lidar_read_status bus s = .ok st (s.after 2
        [Event.write (0x62 <<< 1) [0x01] 0,
         Event.read (0x62 <<< 1) 1 0 (recv (bus (s.txn + 1)) 1)]))
    ∧ ((∃ s1, lidar_read_status bus s = .exited s1) ↔
        ((bus s.txn).result ≠ 0 ∨ (bus (s.txn + 1)).result ≠ 0))
    -- lidar_read_distance
    ∧ ((bus s.txn).result ≠ 0 →
      lidar_read_distance bus s = .exited (s.after 1
        [Event.write (0x62 <<< 1) [0x8f] (bus s.txn).result,
         Event.printf "lidar: read_distance: failed to select distance registers for read" [],
         Event.printf "\r\n" [], Event.exit 1]))
    ∧ ((bus s.txn).result = 0 → (bus (s.txn + 1)).result ≠ 0 →
      lidar_read_distance bus s = .exited (s.after 2
        [Event.write (0x62 <<< 1) [0x8f] 0,
         Event.read (0x62 <<< 1) 2 (bus (s.txn + 1)).result (recv (bus (s.txn + 1)) 2),
         Event.printf "lidar: read_distance: failed to read distance registers" [],
         Event.printf "\r\n" [], Event.exit 1]))
    ∧ ((bus s.txn).result = 0 → (bus (s.txn + 1)).result = 0 →
      ∃ raw, lidar_read_distance bus s = .ok raw (s.after 2
        [Event.write (0x62 <<< 1) [0x8f] 0,
         Event.read (0x62 <<< 1) 2 0 (recv (bus (s.txn + 1)) 2)]))
    ∧ ((∃ s1, lidar_read_distance bus s = .exited s1) ↔
        ((bus s.txn).result ≠ 0 ∨ (bus (s.txn + 1)).result ≠ 0))
    -- lidar_read_delta_velocity
    ∧ ((bus s.txn).result ≠ 0 →
      lidar_read_delta_velocity bus s = .exited (s.after 1
        [Event.write (0x62 <<< 1) [0x09] (bus s.txn).result,
         Event.printf
           "lidar: read_delta_velocity: failed to select delta velocity register for read" [],
         Event.printf "\r\n" [], Event.exit 1]))
    ∧ ((bus s.txn).result = 0 → (bus (s.txn + 1)).result ≠ 0 →
      lidar_read_delta_velocity bus s = .exited (s.after 2
        [Event.write (0x62 <<< 1) [0x09] 0,
         Event.read (0x62 <<< 1) 1 (bus (s.txn + 1)).result (recv (bus (s.txn + 1)) 1),
         Event.printf "lidar: read_delta_velocity: failed to read delta velocity register" [],
         Event.printf "\r\n" [], Event.exit 1]))
    ∧ ((bus s.txn).result = 0 → (bus (s.txn + 1)).result = 0 →
      ∃ delta, lidar_read_delta_velocity bus s = .ok delta (s.after 2
        [Event.write (0x62 <<< 1) [0x09] 0,
         Event.read (0x62 <<< 1) 1 0 (recv (bus (s.txn + 1)) 1)]))
    ∧ ((∃ s1, lidar_read_delta_velocity bus s = .exited s1) ↔
        ((bus s.txn).result ≠ 0 ∨ (bus (s.txn + 1)).result ≠ 0)) := by
  refine ⟨?_, ⟨"lidar: ", ": failed to write acquire command", by decide⟩,
    ?_, ?_, ?_, ?_, ?_, ?_, ?_, ?_,
    ?_, ?_, ?_, ?_, ?_, ?_, ?_, ?_, ?_, ?_, ?_, ?_, ?_, ?_, ?_⟩
  · intro hw
    rw [main_loop, poll_cycle, write_acq_cmd_fails bus s hw]
    rfl
  · intro ks hrun hfuel hw
    rw [main_loop_exits_after_run bus fuel cycles ks vel s _ hrun hfuel
      (poll_cycle_acq_fails bus fuel _ _ hw)]
    simp only [after_after, after_txn]
  · intro ks j hrun hfuel hb hf hw
    rw [main_loop_exits_after_run bus fuel cycles ks vel s _ hrun hfuel
      (poll_cycle_status_select_fails bus fuel _ _ j hb hf hw)]
    simp only [after_after, after_txn]
  · intro ks j hrun hfuel hb hf hw hr
    rw [main_loop_exits_after_run bus fuel cycles ks vel s _ hrun hfuel
      (poll_cycle_status_read_fails bus fuel _ _ j hb hf hw hr)]
    simp only [after_after, after_txn]
  · intro ks k hrun hfuel hk hf hw
    rw [main_loop_exits_after_run bus fuel cycles ks vel s _ hrun hfuel
      (poll_cycle_dist_select_fails bus fuel _ _ k hk hf hw)]
    simp only [after_after, after_txn]
  · intro ks k hrun hfuel hk hf hw hr
    rw [main_loop_exits_after_run bus fuel cycles ks vel s _ hrun hfuel
      (poll_cycle_dist_read_fails bus fuel _ _ k hk hf hw hr)]
    simp only [after_after, after_txn]
  · intro ks k hrun hfuel hk hf hdw hdr hw
    rw [main_loop_exits_after_run bus fuel cycles ks vel s _ hrun hfuel
      (poll_cycle_delta_select_fails bus fuel _ _ k hk hf hdw hdr hw)]
    simp only [after_after, after_txn]
  · intro ks k hrun hfuel hk hf hdw hdr hw hr
    rw [main_loop_exits_after_run bus fuel cycles ks vel s _ hrun hfuel
      (poll_cycle_delta_read_fails bus fuel _ _ k hk hf hdw hdr hw hr)]
    simp only [after_after, after_txn]
  · intro s1 h
    exact main_loop_exit_shape bus fuel cycles vel s s1 h
  · intro hw; rw [write_acq_cmd_fails bus s hw]; rfl
  · intro hw; rw [write_acq_cmd_ok bus s hw]; rfl
  · by_cases hw : (bus s.txn).result = 0
    · simp [write_acq_cmd_ok bus s hw, hw]
    · simp [write_acq_cmd_fails bus s hw, hw]
  · intro hw; rw [read_status_write_fails bus s hw]; rfl
  · intro hw hr; rw [read_status_read_fails bus s hw hr]; rfl
  · intro hw hr; exact ⟨_, by rw [read_status_ok bus s hw hr]; rfl⟩
  · by_cases hw : (bus s.txn).result = 0
    · by_cases hr : (bus (s.txn + 1)).result = 0
      · simp [read_status_ok bus s hw hr, hw, hr]
      · simp [read_status_read_fails bus s hw hr, hw, hr]
    · simp [read_status_write_fails bus s hw, hw]
  · intro hw; rw [read_distance_write_fails bus s hw]; rfl
  · intro hw hr; rw [read_distance_read_fails bus s hw hr]; rfl
  · intro hw hr; exact ⟨_, by rw [read_distance_ok bus s hw hr]; rfl⟩
  · by_cases hw : (bus s.txn).result = 0
    · by_cases hr : (bus (s.txn + 1)).result = 0
      · simp [read_distance_ok bus s hw hr, hw, hr]
      · simp [read_distance_read_fails bus s hw hr, hw, hr]
    · simp [read_distance_write_fails bus s hw, hw]
  · intro hw; rw [read_delta_velocity_write_fails bus s hw]; rfl
  · intro hw hr; rw [read_delta_velocity_read_fails bus s hw hr]; rfl
  · intro hw hr; exact ⟨_, by rw [read_delta_velocity_ok bus s hw hr]; rfl⟩
  · by_cases hw : (bus s.txn).result = 0
    · by_cases hr : (bus (s.txn + 1)).result = 0
      · simp [read_delta_velocity_ok bus s hw hr, hw, hr]
      · simp [read_delta_velocity_read_fails bus s hw hr, hw, hr]
    · simp [read_delta_velocity_write_fails bus s hw, hw]

/-- C6 at three buses: the first write fails with result 1; the distance read of the
first cycle fails with result 3; the delta-velocity select of the second cycle fails
with result 2 after a good first cycle.  Each time `main` exits right after the
diagnostic line of the failing operation. -/
theorem bus_failure_is_fatal_witness :
    main (bus_of [(1, [])]) 4 3 = .exited { txn := 1, trace :=
      [Event.write 196 [0x00, 0x04] 1,
       Event.printf "lidar: write_acq_cmd: failed to write acquire command" [],
       Event.printf "\r\n" [], Event.exit 1] }
    ∧ main (bus_of [(0, []), (0, []), (0, [0x00]), (0, []), (3, [])]) 4 3 =
      .exited { txn := 5, trace :=
        [Event.write 196 [0x00, 0x04] 0,
         Event.write 196 [0x01] 0, Event.read 196 1 0 [0x00], Event.wait,
         Event.write 196 [0x8f] 0, Event.read 196 2 3 [0, 0],
         Event.printf "lidar: read_distance: failed to read distance registers" [],
         Event.printf "\r\n" [], Event.exit 1] }
    ∧ main (bus_of [(0, []), (0, []), (0, [0x00]), (0, []), (0, [0, 50]), (0, []), (0, [5]),
        (0, []), (0, []), (0, [0x00]), (0, []), (0, [0, 60]), (2, [])]) 4 3 =
      .exited { txn := 13, trace :=
        [Event.write 196 [0x00, 0x04] 0,
         Event.write 196 [0x01] 0, Event.read 196 1 0 [0x00], Event.wait,
         Event.write 196 [0x8f] 0, Event.read 196 2 0 [0, 50],
         Event.write 196 [0x09] 0, Event.read 196 1 0 [5],
         Event.printf "lidar: distance=%d cm, velocity=%d cm/s\r\n" [50, 5],
         Event.write 196 [0x00, 0x04] 0,
         Event.write 196 [0x01] 0, Event.read 196 1 0 [0x00], Event.wait,
         Event.write 196 [0x8f] 0, Event.read 196 2 0 [0, 60],
         Event.write 196 [0x09] 2,
         Event.printf
           "lidar: read_delta_velocity: failed to select delta velocity register for read" [],
         Event.printf "\r\n" [], Event.exit 1] } :=
  ⟨(bus_failure_is_fatal (bus_of [(1, [])]) { txn := 0, trace := [] } 4 2 0).1 (by decide),
   (bus_failure_is_fatal (bus_of [(0, []), (0, []), (0, [0x00]), (0, []), (3, [])])
      { txn := 0, trace := [] } 4 2 0).2.2.2.2.2.2.1 [] 1 trivial (by decide) (by decide)
      (by decide) (by decide) (by decide),
   (bus_failure_is_fatal (bus_of [(0, []), (0, []), (0, [0x00]), (0, []), (0, [0, 50]),
      (0, []), (0, [5]), (0, []), (0, []), (0, [0x00]), (0, []), (0, [0, 60]), (2, [])])
      { txn := 0, trace := [] } 4 1 0).2.2.2.2.2.2.2.1 [1] 1 ⟨by decide, trivial⟩ (by decide)
      (by decide) (by decide) (by decide) (by decide) (by decide)⟩

end Lidar
